import Mathlib

/-!
# flyteplugins: object status tracker and CoPilot injector

A shallow embedding of

* `go/tasks/v1/k8splugins/k8splugin_state.go` (the persisted object status
  record, `StoreK8sObjectStatus` / `RetrieveK8sObjectStatus`), and
* `go/tasks/pluginmachinery/flytek8s/copilot.go` (the CoPilot pod injector).

Conventions of the embedding:

* a Go function returning `(v, error)` is a Lean function returning a pair whose
  last component is `Option String` (`none` is the `nil` error, `some msg` an
  error with message `msg`);
* a Go function mutating an argument through a pointer returns the mutated value
  next to the error;
* a pointer that may be `nil` is an `Option`;
* a slice is a `List` (the `nil` slice and the empty slice are both `[]`);
* functions of libraries outside the repository (`fmt`, `proto`, `base64`,
  `time`, `resource`) are parameters.
-/

set_option autoImplicit false

namespace k8splugins

/-! ## k8splugin_state.go -/

/-- The key `statusKey`. -/
def statusKey : String := "ObjectStatus"

/-- The key `terminalTaskPhaseKey`. -/
def terminalTaskPhaseKey : String := "TerminalTaskPhase"

/-- The Go type `K8sObjectStatus`, an `int`: every integer is a value of the type, three of them
are named. -/
structure K8sObjectStatus where
  val : Int
  deriving DecidableEq, Repr

/-- The constant `K8sObjectUnknown` (iota 0). -/
def K8sObjectUnknown : K8sObjectStatus := ⟨0⟩

/-- The constant `K8sObjectExists` (iota 1). -/
def K8sObjectExists : K8sObjectStatus := ⟨1⟩

/-- The constant `K8sObjectDeleted` (iota 2). -/
def K8sObjectDeleted : K8sObjectStatus := ⟨2⟩

/-- The method `K8sObjectStatus.String`. -/
def K8sObjectStatus.String (q : K8sObjectStatus) : String :=
  if q = K8sObjectUnknown then "NotStarted"
  else if q = K8sObjectExists then "Running"
  else if q = K8sObjectDeleted then "Deleted"
  else "IllegalK8sObjectStatus"

/-- Modelled from the spec: the type `types.TaskPhase` is declared in the package
`go/tasks/v1/types`, which is not among the sources. The spec gives it as the closed enumeration
Undefined, Queued, Running, Success, RetryableFailure, PermanentFailure, Unknown. -/
inductive TaskPhase where
  | Undefined
  | Queued
  | Running
  | Success
  | RetryableFailure
  | PermanentFailure
  | Unknown
  deriving DecidableEq, Repr

/-- The constant `types.TaskPhaseUnknown`. -/
def TaskPhaseUnknown : TaskPhase := TaskPhase.Unknown

/-- A value of the Go type `interface{}`: a dynamic type together with a value of it. The two
dynamic types the code asserts on are kept apart; the `nil` interface and values of the other
types the bag may hold are listed next to them. -/
inductive Value where
  | status (s : K8sObjectStatus)
  | phase (p : TaskPhase)
  | str (s : String)
  | int (i : Int)
  | bool (b : Bool)
  | nil
  deriving DecidableEq, Repr

/-- The type assertion `v.(K8sObjectStatus)` in its two-result form: the value and `true` when the
dynamic type is `K8sObjectStatus`, the zero value and `false` otherwise. -/
def assertStatus : Value → K8sObjectStatus × Bool
  | Value.status s => (s, true)
  | _ => (⟨0⟩, false)

/-- The type assertion `v.(types.TaskPhase)` in its two-result form. The zero value of the type
is not used by the code when the assertion fails (the error branch returns constants), it is
taken to be `TaskPhaseUnknown` here. -/
def assertPhase : Value → TaskPhase × Bool
  | Value.phase p => (p, true)
  | _ => (TaskPhaseUnknown, false)

/-- A non-nil Go `map[string]interface{}`, given by its entries in the order in which one `range`
loop visits them. The keys of a Go map are pairwise distinct (`WellFormed`); the order of a
`range` loop is not fixed, so a property of the map is one that holds for every order. -/
abbrev GoMap := List (String × Value)

/-- The keys of a Go map are pairwise distinct. -/
def WellFormed (m : GoMap) : Prop := (m.map Prod.fst).Nodup

instance (m : GoMap) : Decidable (WellFormed m) := by
  unfold WellFormed; infer_instance

/-- The map read `m[k]` in its two-result form, as an `Option`. -/
def GoMap.get (m : GoMap) (k : String) : Option Value := List.lookup k m

/-- The local variables of the loop in `RetrieveK8sObjectStatus`. -/
structure LoopState where
  status : K8sObjectStatus
  terminalTaskPhase : TaskPhase
  foundStatus : Bool
  foundPhase : Bool
  deriving DecidableEq, Repr

/-- One iteration of the loop `for k, v := range customState`. -/
def loopBody (st : LoopState) (kv : String × Value) : LoopState :=
  if kv.1 = statusKey then
    { st with status := (assertStatus kv.2).1, foundStatus := (assertStatus kv.2).2 }
  else if kv.1 = terminalTaskPhaseKey then
    { st with terminalTaskPhase := (assertPhase kv.2).1, foundPhase := (assertPhase kv.2).2 }
  else st

/-- The function `mapToString`: one line `key="value"` for each entry, the value rendered by the
verb `%v` of the package `fmt` (the parameter `fmtV`). Its loop is given the order of the loop of
`RetrieveK8sObjectStatus`; Go may visit the entries in another order, which changes the order of
the lines of the message only. -/
def mapToString (fmtV : Value → String) (m : GoMap) : String :=
  m.foldl (fun b kv => b ++ kv.1 ++ "=\"" ++ fmtV kv.2 ++ "\"\n") ""

/-- The function `RetrieveK8sObjectStatus`. The argument is `none` for the `nil` map. -/
def RetrieveK8sObjectStatus (fmtV : Value → String) (customState : Option GoMap) :
    K8sObjectStatus × TaskPhase × Option String :=
  match customState with
  | none => (K8sObjectUnknown, TaskPhaseUnknown, none)
  | some m =>
    let st := m.foldl loopBody
      { status := K8sObjectUnknown, terminalTaskPhase := TaskPhaseUnknown,
        foundStatus := false, foundPhase := false }
    if !(st.foundPhase && st.foundStatus) then
      (K8sObjectUnknown, TaskPhaseUnknown, some ("invalid custom state " ++ mapToString fmtV m))
    else
      (st.status, st.terminalTaskPhase, none)

/-- The function `StoreK8sObjectStatus`: a fresh map with the two keys set. -/
def StoreK8sObjectStatus (status : K8sObjectStatus) (phase : TaskPhase) : GoMap :=
  [(statusKey, Value.status status), (terminalTaskPhaseKey, Value.phase phase)]

end k8splugins

namespace flytek8s

/-! ## copilot.go -/

/-- The constant `flyteDataConfigVolume`. -/
def flyteDataConfigVolume : String := "data-config-volume"

/-- The constant `flyteDataConfigPath`. -/
def flyteDataConfigPath : String := "/etc/flyte/config-data"

/-- The constant `flyteDataConfigMap`. -/
def flyteDataConfigMap : String := "flyte-data-config"

/-- The constant `flyteSidecarContainerName`. -/
def flyteSidecarContainerName : String := "sidecar"

/-- The constant `flyteInitContainerName`. -/
def flyteInitContainerName : String := "downloader"

/-- The variable `pTraceCapability`. -/
def pTraceCapability : String := "SYS_PTRACE"

/-- The resource name `v1.ResourceCPU`. -/
def ResourceCPU : String := "cpu"

/-- The resource name `v1.ResourceMemory`. -/
def ResourceMemory : String := "memory"

/-- The resource name `v1.ResourceStorage`. -/
def ResourceStorage : String := "storage"

/-- The type `storage.DataReference`, a string type whose method `String` is the conversion
to `string`. -/
abbrev DataReference := String

/-- The type `v1.ResourceList`, a map from resource names to quantities, given by its entries.
The type `Q` stands for `resource.Quantity`. -/
abbrev ResourceList (Q : Type) := List (String × Q)

/-- The fields of `v1.ResourceRequirements`. -/
structure ResourceRequirements (Q : Type) where
  Limits : ResourceList Q := []
  Requests : ResourceList Q := []
  deriving DecidableEq, Repr

/-- The fields of `v1.VolumeMount` (those the injector sets, and `ReadOnly`). -/
structure VolumeMount where
  Name : String := ""
  ReadOnly : Bool := false
  MountPath : String := ""
  deriving DecidableEq, Repr

/-- The type `v1.Capabilities`. -/
structure Capabilities where
  Add : List String := []
  Drop : List String := []
  deriving DecidableEq, Repr

/-- The type `v1.SecurityContext` (the field the injector touches, and one it does not). -/
structure SecurityContext where
  Capabilities : Option Capabilities := none
  Privileged : Option Bool := none
  deriving DecidableEq, Repr

/-- The type `v1.Container`. The default of every field is the zero value of its Go type, so
that `({} : Container Q)` is `v1.Container{}`. -/
structure Container (Q : Type) where
  Name : String := ""
  Image : String := ""
  Command : List String := []
  Args : List String := []
  WorkingDir : String := ""
  Env : List (String × String) := []
  Resources : ResourceRequirements Q := {}
  VolumeMounts : List VolumeMount := []
  TerminationMessagePolicy : String := ""
  ImagePullPolicy : String := ""
  SecurityContext : Option SecurityContext := none
  deriving DecidableEq, Repr

/-- The type `v1.EmptyDirVolumeSource`. The medium `v1.StorageMediumDefault` is the empty
string. -/
structure EmptyDirVolumeSource (Q : Type) where
  Medium : String := ""
  SizeLimit : Option Q := none
  deriving DecidableEq, Repr

/-- The type `v1.ConfigMapVolumeSource`, by the name of the config map it refers to. -/
structure ConfigMapVolumeSource where
  Name : String := ""
  deriving DecidableEq, Repr

/-- The type `v1.VolumeSource` (the two sources the injector uses). -/
structure VolumeSource (Q : Type) where
  EmptyDir : Option (EmptyDirVolumeSource Q) := none
  ConfigMap : Option ConfigMapVolumeSource := none
  deriving DecidableEq, Repr

/-- The type `v1.Volume`. -/
structure Volume (Q : Type) where
  Name : String := ""
  VolumeSource : VolumeSource Q := {}
  deriving DecidableEq, Repr

/-- The type `v1.PodSpec`: the four fields the injector writes and a few of those it does not. -/
structure PodSpec (Q : Type) where
  Volumes : List (Volume Q) := []
  InitContainers : List (Container Q) := []
  Containers : List (Container Q) := []
  RestartPolicy : String := ""
  ActiveDeadlineSeconds : Option Int := none
  ServiceAccountName : String := ""
  NodeName : String := ""
  HostNetwork : Bool := false
  ShareProcessNamespace : Option Bool := none
  deriving DecidableEq, Repr

/-- The type `config.FlyteCoPilotConfig`, by the fields `copilot.go` reads. `StartTimeout` is the
`time.Duration` inside the configured duration, in nanoseconds. -/
structure FlyteCoPilotConfig where
  NamePrefix : String := ""
  Image : String := ""
  DefaultInputDataPath : String := ""
  DefaultOutputPath : String := ""
  InputVolumeName : String := ""
  OutputVolumeName : String := ""
  StartTimeout : Int := 0
  CPU : String := ""
  Memory : String := ""
  deriving DecidableEq, Repr

/-- The message `core.TypedInterface`; `VM` stands for `core.VariableMap`. -/
structure TypedInterface (VM : Type) where
  Inputs : Option VM := none
  Outputs : Option VM := none
  deriving DecidableEq, Repr

/-- The message `core.DataLoadingConfig`, by the fields `copilot.go` reads; `F` stands for the
enumeration `core.DataLoadingConfig_MetadataFormat`. -/
structure DataLoadingConfig (F : Type) where
  Enabled : Bool
  InputPath : String
  OutputPath : String
  Format : F
  deriving DecidableEq, Repr

/-- The getter `GetInputPath` of `*core.DataLoadingConfig`. -/
def DataLoadingConfig.GetInputPath {F : Type} (pilot : DataLoadingConfig F) : String :=
  pilot.InputPath

/-- The getter `GetOutputPath` of `*core.DataLoadingConfig`. -/
def DataLoadingConfig.GetOutputPath {F : Type} (pilot : DataLoadingConfig F) : String :=
  pilot.OutputPath

/-- The interface `core2.TaskExecutionMetadata`, by the one value `copilot.go` reads from it:
the result of `GetOverrides().GetResources()`. -/
structure TaskExecutionMetadata (Q : Type) where
  OverridesResources : Option (ResourceRequirements Q)
  deriving DecidableEq, Repr

/-- The interface `io.InputFilePaths`, by the result of `GetInputPath()`. -/
structure InputFilePaths where
  InputPath : DataReference
  deriving DecidableEq, Repr

/-- The interface `io.OutputFilePaths`, by the results of `GetOutputPrefixPath()` and
`GetRawOutputPrefix()`. -/
structure OutputFilePaths where
  OutputPrefixPath : DataReference
  RawOutputPrefix : DataReference
  deriving DecidableEq, Repr

/-- The library functions `copilot.go` calls, outside the repository:
`resource.ParseQuantity`, `proto.Marshal` (to bytes, each below 256),
`base64.StdEncoding.EncodeToString`, `time.Duration.String` and the method `String` of the
format enumeration. A failing call yields `Except.error` with the message of its error.

A library value gives the results of the calls of one application of `AddCoPilotToPod`, which
calls `proto.Marshal` once for each schema. `proto.Marshal` is called afresh in every
application and may write the entries of the variable map in another order each time, so two
applications are given two libraries, which may differ in `Marshal` only. -/
structure Library (Q VM F : Type) where
  ParseQuantity : String → Except String Q
  Marshal : VM → Except String (List Nat)
  EncodeToString : List Nat → String
  DurationString : Int → String
  FormatString : F → String

/-- The function `strings.ToLower` on ASCII text (the names of a protobuf enumeration and
decimal numerals are ASCII): every letter `A`..`Z` is replaced by its lower-case letter. -/
def ToLower (s : String) : String := String.mk (s.toList.map Char.toLower)

/-- The function `errors.Wrap` of `github.com/pkg/errors`, on messages. -/
def Wrap (err : String) (message : String) : String := message ++ ": " ++ err

/-- The function `FlyteCoPilotContainer`. -/
def FlyteCoPilotContainer {Q VM F : Type} (lib : Library Q VM F) (name : String)
    (cfg : FlyteCoPilotConfig) (args : List String) (volumeMounts : List VolumeMount) :
    Container Q × Option String :=
  match lib.ParseQuantity cfg.CPU with
  | Except.error err => ({}, some err)
  | Except.ok cpu =>
    match lib.ParseQuantity cfg.Memory with
    | Except.error err => ({}, some err)
    | Except.ok mem =>
      ({ Name := cfg.NamePrefix ++ name
         Image := cfg.Image
         Command := ["/bin/flyte-copilot", "--config", "/etc/flyte/config**/*"]
         Args := args
         WorkingDir := "/"
         Resources :=
           { Limits := [(ResourceCPU, cpu), (ResourceMemory, mem)]
             Requests := [(ResourceCPU, cpu), (ResourceMemory, mem)] }
         VolumeMounts := volumeMounts
         TerminationMessagePolicy := "FallbackToLogsOnError"
         ImagePullPolicy := "IfNotPresent" }, none)

/-- The function `SidecarCommandArgs`. -/
def SidecarCommandArgs {Q VM F : Type} (lib : Library Q VM F) (fromLocalPath : String)
    (outputPrefix rawOutputPath : DataReference) (startTimeout : Int)
    (outputInterface : Option VM) : List String × Option String :=
  match outputInterface with
  | none => ([], some "output Interface is required for CoPilot Sidecar")
  | some oi =>
    match lib.Marshal oi with
    | Except.error err => ([], some (Wrap err "failed to marshal given output interface"))
    | Except.ok b =>
      ([ "upload",
         "--start-timeout",
         lib.DurationString startTimeout,
         "--to-raw-output",
         rawOutputPath,
         "--to-output-prefix",
         outputPrefix,
         "--from-local-dir",
         fromLocalPath,
         "--output-interface",
         lib.EncodeToString b ], none)

/-- The function `DownloadCommandArgs`. -/
def DownloadCommandArgs {Q VM F : Type} (lib : Library Q VM F)
    (fromInputsPath outputPrefix : DataReference) (toLocalPath : String) (format : F)
    (inputInterface : Option VM) : List String × Option String :=
  match inputInterface with
  | none => ([], some "input Interface is required for CoPilot Downloader")
  | some ii =>
    match lib.Marshal ii with
    | Except.error err => ([], some (Wrap err "failed to marshal given input interface"))
    | Except.ok b =>
      ([ "download",
         "--from-remote",
         fromInputsPath,
         "--to-output-prefix",
         outputPrefix,
         "--to-local-dir",
         toLocalPath,
         "--format",
         ToLower (lib.FormatString format),
         "--input-interface",
         lib.EncodeToString b ], none)

/-- The function `DataVolume`. -/
def DataVolume {Q : Type} (name : String) (size : Option Q) : Volume Q :=
  { Name := name
    VolumeSource := { EmptyDir := some { Medium := "", SizeLimit := size } } }

/-- The function `CalculateStorageSize`. -/
def CalculateStorageSize {Q : Type} (requirements : Option (ResourceRequirements Q)) : Option Q :=
  match requirements with
  | none => none
  | some r =>
    match List.lookup ResourceStorage r.Limits with
    | some s => some s
    | none =>
      match List.lookup ResourceStorage r.Requests with
      | some s => some s
      | none => none

/-- The effective mount path: the override of the data-loading config when it is not the empty
string, the default of the fragment config otherwise (`inPath` and `outPath` in the source). -/
def effectivePath (defaultPath : String) (override : String) : String :=
  if override ≠ "" then override else defaultPath

/-- The function `AddCoPilotToContainer`; the container `c` is returned as mutated. -/
def AddCoPilotToContainer {Q VM F : Type} (cfg : FlyteCoPilotConfig) (c : Container Q)
    (iFace : Option (TypedInterface VM)) (pilot : Option (DataLoadingConfig F)) :
    Container Q × Option String :=
  match pilot with
  | none => (c, none)
  | some pilot =>
    if !pilot.Enabled then (c, none)
    else
      let sc : SecurityContext := match c.SecurityContext with
        | none => {}
        | some sc => sc
      let caps : Capabilities := match sc.Capabilities with
        | none => {}
        | some caps => caps
      let caps := { caps with Add := caps.Add ++ [pTraceCapability] }
      let c := { c with SecurityContext := some { sc with Capabilities := some caps } }
      match iFace with
      | none => (c, none)
      | some iFace =>
        let c := match iFace.Inputs with
          | none => c
          | some _ =>
            let inPath := effectivePath cfg.DefaultInputDataPath pilot.GetInputPath
            { c with VolumeMounts :=
                c.VolumeMounts ++ [{ Name := cfg.InputVolumeName, MountPath := inPath }] }
        let c := match iFace.Outputs with
          | none => c
          | some _ =>
            let outPath := effectivePath cfg.DefaultOutputPath pilot.GetOutputPath
            { c with VolumeMounts :=
                c.VolumeMounts ++ [{ Name := cfg.OutputVolumeName, MountPath := outPath }] }
        (c, none)

/-- The volume mount `cfgVMount` of `AddCoPilotToPod`. -/
def cfgVMount : VolumeMount :=
  { Name := flyteDataConfigVolume, MountPath := flyteDataConfigPath }

/-- The volume of the data configuration that `AddCoPilotToPod` appends. -/
def cfgVolume {Q : Type} : Volume Q :=
  { Name := flyteDataConfigVolume
    VolumeSource := { ConfigMap := some { Name := flyteDataConfigMap } } }

/-- The block `if iFace.Inputs != nil` of `AddCoPilotToPod`: the pod as mutated by the block and
the error the block returns with, if it returns. -/
def addInputs {Q VM F : Type} (lib : Library Q VM F) (cfg : FlyteCoPilotConfig)
    (coPilotPod : PodSpec Q) (iFace : TypedInterface VM)
    (taskExecMetadata : TaskExecutionMetadata Q) (inputPaths : InputFilePaths)
    (outputPaths : OutputFilePaths) (pilot : DataLoadingConfig F) : PodSpec Q × Option String :=
  match iFace.Inputs with
  | none => (coPilotPod, none)
  | some _ =>
    let inPath := effectivePath cfg.DefaultInputDataPath pilot.GetInputPath
    let inputsVolumeMount : VolumeMount := { Name := cfg.InputVolumeName, MountPath := inPath }
    let format := pilot.Format
    let pod := { coPilotPod with Volumes := coPilotPod.Volumes ++
      [DataVolume cfg.InputVolumeName (CalculateStorageSize taskExecMetadata.OverridesResources)] }
    match DownloadCommandArgs lib inputPaths.InputPath outputPaths.OutputPrefixPath inPath format
        iFace.Inputs with
    | (_, some err) => (pod, some err)
    | (args, none) =>
      match FlyteCoPilotContainer lib flyteInitContainerName cfg args
          [inputsVolumeMount, cfgVMount] with
      | (_, some err) => (pod, some err)
      | (downloader, none) =>
        ({ pod with InitContainers := pod.InitContainers ++ [downloader] }, none)

/-- The block `if iFace.Outputs != nil` of `AddCoPilotToPod`. The two comments of the source in
this block speak of the inputs volume and of the inputs init container; the code appends the
output volume and the sidecar, which is what is embedded. -/
def addOutputs {Q VM F : Type} (lib : Library Q VM F) (cfg : FlyteCoPilotConfig)
    (coPilotPod : PodSpec Q) (iFace : TypedInterface VM)
    (taskExecMetadata : TaskExecutionMetadata Q)
    (outputPaths : OutputFilePaths) (pilot : DataLoadingConfig F) : PodSpec Q × Option String :=
  match iFace.Outputs with
  | none => (coPilotPod, none)
  | some _ =>
    let outPath := effectivePath cfg.DefaultOutputPath pilot.GetOutputPath
    let outputsVolumeMount : VolumeMount := { Name := cfg.OutputVolumeName, MountPath := outPath }
    let pod := { coPilotPod with Volumes := coPilotPod.Volumes ++
      [DataVolume cfg.OutputVolumeName (CalculateStorageSize taskExecMetadata.OverridesResources)] }
    match SidecarCommandArgs lib outPath outputPaths.OutputPrefixPath outputPaths.RawOutputPrefix
        cfg.StartTimeout iFace.Outputs with
    | (_, some err) => (pod, some err)
    | (args, none) =>
      match FlyteCoPilotContainer lib flyteSidecarContainerName cfg args
          [outputsVolumeMount, cfgVMount] with
      | (_, some err) => (pod, some err)
      | (sidecar, none) =>
        ({ pod with Containers := pod.Containers ++ [sidecar] }, none)

/-- The function `AddCoPilotToPod`; the pod spec `coPilotPod` is returned as mutated, also when
the function returns an error. -/
def AddCoPilotToPod {Q VM F : Type} (lib : Library Q VM F) (cfg : FlyteCoPilotConfig)
    (coPilotPod : PodSpec Q) (iFace : Option (TypedInterface VM))
    (taskExecMetadata : TaskExecutionMetadata Q) (inputPaths : InputFilePaths)
    (outputPaths : OutputFilePaths) (pilot : Option (DataLoadingConfig F)) :
    PodSpec Q × Option String :=
  match pilot with
  | none => (coPilotPod, none)
  | some pilot =>
    if !pilot.Enabled then (coPilotPod, none)
    else
      let pod := { coPilotPod with ShareProcessNamespace := some true }
      match iFace with
      | none => (pod, none)
      | some iFace =>
        let pod :=
          if iFace.Inputs.isSome || iFace.Outputs.isSome then
            { pod with Volumes := pod.Volumes ++ [cfgVolume] }
          else pod
        match addInputs lib cfg pod iFace taskExecMetadata inputPaths outputPaths pilot with
        | (pod, some err) => (pod, some err)
        | (pod, none) => addOutputs lib cfg pod iFace taskExecMetadata outputPaths pilot

/-! ### Sample values

A sample instance of the library parameters and sample arguments, at which the definitions
above are evaluated. The sample library stands for no particular implementation: quantities
are natural numbers, a variable map is the list of its variable names, a format is a number. -/

/-- A sample library: two quantity strings parse, every other string is rejected. -/
def sampleLibrary : Library Nat (List String) Nat where
  ParseQuantity := fun s =>
    if s = "500m" then Except.ok 500
    else if s = "128Mi" then Except.ok 128
    else Except.error "quantities must match the regular expression"
  Marshal := fun vm => Except.ok (vm.map String.length)
  EncodeToString := fun b => String.mk (b.map (fun n => Char.ofNat (97 + n % 26)))
  DurationString := fun d => if d = 0 then "0s" else "1m0s"
  FormatString := fun f => if f = 0 then "JSON" else if f = 1 then "YAML" else "PROTO"

/-- A sample fragment config whose CPU and memory strings parse in the sample library. -/
def sampleConfig : FlyteCoPilotConfig :=
  { NamePrefix := "flyte-copilot-"
    Image := "flyte-copilot:latest"
    DefaultInputDataPath := "/var/flyte/inputs"
    DefaultOutputPath := "/var/flyte/outputs"
    InputVolumeName := "flyte-inputs"
    OutputVolumeName := "flyte-outputs"
    StartTimeout := 60000000000
    CPU := "500m"
    Memory := "128Mi" }

/-- A sample fragment config whose memory string does not parse in the sample library. -/
def sampleBadConfig : FlyteCoPilotConfig :=
  { sampleConfig with Memory := "lots" }

/-- A sample pod spec with one user container. -/
def samplePod : PodSpec Nat :=
  { Containers := [{ Name := "user", Image := "user:1" }]
    RestartPolicy := "Never"
    ServiceAccountName := "service-account" }

/-- A sample interface declaring inputs and outputs. -/
def sampleInterface : TypedInterface (List String) :=
  { Inputs := some ["x", "y"], Outputs := some ["o"] }

/-- A sample data-loading config, enabled, with no path override. -/
def samplePilot : DataLoadingConfig Nat :=
  { Enabled := true, InputPath := "", OutputPath := "", Format := 0 }

/-- A sample task metadata without resource overrides. -/
def sampleMetadata : TaskExecutionMetadata Nat := { OverridesResources := none }

/-- Sample input paths. -/
def sampleInputPaths : InputFilePaths := { InputPath := "s3://bucket/inputs.pb" }

/-- Sample output paths. -/
def sampleOutputPaths : OutputFilePaths :=
  { OutputPrefixPath := "s3://bucket/out", RawOutputPrefix := "s3://bucket/raw" }

/-- Sample task metadata whose resource overrides hold a storage limit and a storage request. -/
def sampleStorageMetadata : TaskExecutionMetadata Nat :=
  { OverridesResources := some
      { Limits := [("cpu", 1024), ("storage", 100)], Requests := [("storage", 50)] } }

/-- A sample pilot with an input path override. -/
def sampleOverridePilot : DataLoadingConfig Nat :=
  { Enabled := true, InputPath := "/data/in", OutputPath := "", Format := 1 }

/-- The sample library at another call of `proto.Marshal`, which writes the entries of the
variable map in the opposite order; the other functions are those of the sample library. -/
def sampleLibraryReordered : Library Nat (List String) Nat :=
  { sampleLibrary with Marshal := fun vm => Except.ok (vm.reverse.map String.length) }

/-- A sample interface whose inputs have two variables with names of different length. -/
def sampleTwoInputsInterface : TypedInterface (List String) :=
  { Inputs := some ["x", "yy"], Outputs := some ["o"] }

/-! ### The mount decisions, as the specification words them -/

/-- The data-volume mounts in the words of the specification: the input mount (the configured
input volume name, at the input path override when it is not empty and at the default input
path otherwise) when inputs are declared, followed by the output mount (the configured output
volume name, at the output override when it is not empty and at the default otherwise) when
outputs are declared; no mount for a nil interface. -/
def specDataMounts {VM F : Type} (cfg : FlyteCoPilotConfig)
    (iFace : Option (TypedInterface VM)) (pilot : DataLoadingConfig F) : List VolumeMount :=
  match iFace with
  | none => []
  | some i =>
    (if i.Inputs.isSome then
      [{ Name := cfg.InputVolumeName
         MountPath := if pilot.InputPath = "" then cfg.DefaultInputDataPath
           else pilot.InputPath }]
     else []) ++
    (if i.Outputs.isSome then
      [{ Name := cfg.OutputVolumeName
         MountPath := if pilot.OutputPath = "" then cfg.DefaultOutputPath
           else pilot.OutputPath }]
     else [])

end flytek8s

namespace container

/-! ## The phase mapper

The method `GetTaskPhase` of the container plugin is called by
`go/tasks/plugins/k8s/container/container_test.go`; the method and the helpers it maps the pod
status with are not among the sources. -/

open k8splugins

/-- The pod phase `v1.PodPending`. -/
def PodPending : String := "Pending"

/-- The pod phase `v1.PodRunning`. -/
def PodRunning : String := "Running"

/-- The pod phase `v1.PodSucceeded`. -/
def PodSucceeded : String := "Succeeded"

/-- The pod phase `v1.PodFailed`. -/
def PodFailed : String := "Failed"

/-- The condition type `v1.PodReasonUnschedulable`. -/
def PodReasonUnschedulable : String := "Unschedulable"

/-- Modelled from the spec: the observed status of the orchestrated object, which the phase
mapper reads (the type of the pod status is not among the sources): the reported phase, the
type of the failure condition if one is set, the reported message and the reported reason. -/
structure PodStatus where
  Phase : String := ""
  Condition : Option String := none
  Message : String := ""
  Reason : String := ""
  deriving DecidableEq, Repr

/-- Modelled from the spec: the result of the phase mapper (the type of the phase info is not
among the sources): a task phase and, for a failure, an error code and an error message. -/
structure PhaseInfo where
  Phase : TaskPhase
  Err : Option (String × String) := none
  deriving DecidableEq, Repr

/-- Modelled from the spec: the method `GetTaskPhase` of the container plugin, which is not
among the sources. Pending gives Queued, Running gives Running, Succeeded gives Success; Failed
gives RetryableFailure with the type of the failure condition as error code if one is set and
`UnknownError` otherwise, and with the reported message, or the reason if no message is
present, as error message; every other phase gives Unknown without an error. The second
component is the error the method returns, which is always nil. -/
def GetTaskPhase (status : PodStatus) : PhaseInfo × Option String :=
  if status.Phase = PodPending then ({ Phase := TaskPhase.Queued }, none)
  else if status.Phase = PodRunning then ({ Phase := TaskPhase.Running }, none)
  else if status.Phase = PodSucceeded then ({ Phase := TaskPhase.Success }, none)
  else if status.Phase = PodFailed then
    let code := match status.Condition with
      | some t => t
      | none => "UnknownError"
    let message := if status.Message ≠ "" then status.Message else status.Reason
    ({ Phase := TaskPhase.RetryableFailure, Err := some (code, message) }, none)
  else ({ Phase := TaskPhase.Unknown }, none)

/-- The failed pod of the test `failConditionUnschedulable`: reason and condition
`Unschedulable`, message `some message`. -/
def sampleFailedStatus : PodStatus :=
  { Phase := "Failed"
    Condition := some "Unschedulable"
    Message := "some message"
    Reason := "Unschedulable" }

end container

/-! ## Theorems: the object status tracker -/

namespace k8splugins

theorem statusKey_ne_terminalTaskPhaseKey : statusKey ≠ terminalTaskPhaseKey := by decide

/-- A read skips an entry with another key. -/
theorem get_cons_ne (k k0 : String) (v0 : Value) (rest : GoMap) (h : k ≠ k0) :
    GoMap.get ((k0, v0) :: rest) k = GoMap.get rest k := by
  have hb : (k == k0) = false := by simpa using h
  simp [GoMap.get, List.lookup_cons, hb]

/-- A read finds the first entry when it has the key. -/
theorem get_cons_self (k : String) (v0 : Value) (rest : GoMap) :
    GoMap.get ((k, v0) :: rest) k = some v0 := by
  simp [GoMap.get]

/-- In a map with pairwise distinct keys an entry is what a read of its key finds. -/
theorem get_of_mem (m : GoMap) (h : WellFormed m) (k : String) (v : Value)
    (hm : (k, v) ∈ m) : m.get k = some v := by
  induction m with
  | nil => simp at hm
  | cons e rest ih =>
    obtain ⟨k0, v0⟩ := e
    have hnd : k0 ∉ rest.map Prod.fst ∧ (rest.map Prod.fst).Nodup := by
      simpa [WellFormed] using h
    rcases List.mem_cons.mp hm with heq | hin
    · cases heq
      simp [GoMap.get]
    · have hne : k ≠ k0 := by
        intro hk
        exact hnd.1 (hk ▸ List.mem_map_of_mem Prod.fst hin)
      rw [get_cons_ne k k0 v0 rest hne]
      exact ih hnd.2 hin

/-- A key that is not among the keys is not found. -/
theorem get_eq_none_of_not_mem (m : GoMap) (k : String) (h : k ∉ m.map Prod.fst) :
    m.get k = none := by
  induction m with
  | nil => rfl
  | cons e rest ih =>
    obtain ⟨k0, v0⟩ := e
    have h1 : k ≠ k0 ∧ k ∉ rest.map Prod.fst := by simpa using h
    rw [get_cons_ne k k0 v0 rest h1.1]
    exact ih h1.2

/-- The status half of the loop of `RetrieveK8sObjectStatus`: it ends with the assertion on the
entry at `statusKey`, or as it started when there is none. -/
theorem loop_status (m : GoMap) (h : WellFormed m) (st : LoopState) :
    ((m.foldl loopBody st).status, (m.foldl loopBody st).foundStatus) =
      (match m.get statusKey with
        | some v => assertStatus v
        | none => (st.status, st.foundStatus)) := by
  induction m generalizing st with
  | nil => rfl
  | cons e rest ih =>
    obtain ⟨k0, v0⟩ := e
    have hnd : k0 ∉ rest.map Prod.fst ∧ (rest.map Prod.fst).Nodup := by
      simpa [WellFormed] using h
    rw [List.foldl_cons, ih hnd.2]
    by_cases hk : k0 = statusKey
    · subst hk
      rw [get_eq_none_of_not_mem rest statusKey hnd.1, get_cons_self]
      simp [loopBody]
    · have hk2 : statusKey ≠ k0 := fun e => hk e.symm
      rw [get_cons_ne statusKey k0 v0 rest hk2]
      cases hr : GoMap.get rest statusKey with
      | some v => rfl
      | none =>
        have hne : terminalTaskPhaseKey ≠ statusKey :=
          fun e => statusKey_ne_terminalTaskPhaseKey e.symm
        by_cases hp : k0 = terminalTaskPhaseKey <;> simp [loopBody, hk, hp, hne]

/-- The phase half of the loop of `RetrieveK8sObjectStatus`. -/
theorem loop_phase (m : GoMap) (h : WellFormed m) (st : LoopState) :
    ((m.foldl loopBody st).terminalTaskPhase, (m.foldl loopBody st).foundPhase) =
      (match m.get terminalTaskPhaseKey with
        | some v => assertPhase v
        | none => (st.terminalTaskPhase, st.foundPhase)) := by
  induction m generalizing st with
  | nil => rfl
  | cons e rest ih =>
    obtain ⟨k0, v0⟩ := e
    have hnd : k0 ∉ rest.map Prod.fst ∧ (rest.map Prod.fst).Nodup := by
      simpa [WellFormed] using h
    rw [List.foldl_cons, ih hnd.2]
    by_cases hk : k0 = terminalTaskPhaseKey
    · subst hk
      rw [get_eq_none_of_not_mem rest terminalTaskPhaseKey hnd.1]
      have hne : terminalTaskPhaseKey ≠ statusKey := fun e => statusKey_ne_terminalTaskPhaseKey e.symm
      rw [get_cons_self]
      simp [loopBody, hne]
    · have hk2 : terminalTaskPhaseKey ≠ k0 := fun e => hk e.symm
      rw [get_cons_ne terminalTaskPhaseKey k0 v0 rest hk2]
      cases hr : GoMap.get rest terminalTaskPhaseKey with
      | some v => rfl
      | none =>
        by_cases hs : k0 = statusKey <;> simp [loopBody, hk, hs]

/-- What `RetrieveK8sObjectStatus` returns on a non-nil map with pairwise distinct keys, by what
a read of the two keys finds. -/
theorem retrieve_some (fmtV : Value → String) (m : GoMap) (h : WellFormed m) :
    RetrieveK8sObjectStatus fmtV (some m) =
      (match m.get statusKey, m.get terminalTaskPhaseKey with
        | some (Value.status s), some (Value.phase p) => (s, p, none)
        | _, _ => (K8sObjectUnknown, TaskPhaseUnknown,
            some ("invalid custom state " ++ mapToString fmtV m))) := by
  have hs := loop_status m h
    { status := K8sObjectUnknown, terminalTaskPhase := TaskPhaseUnknown,
      foundStatus := false, foundPhase := false }
  have hp := loop_phase m h
    { status := K8sObjectUnknown, terminalTaskPhase := TaskPhaseUnknown,
      foundStatus := false, foundPhase := false }
  simp only [RetrieveK8sObjectStatus]
  generalize List.foldl loopBody _ m = st at hs hp ⊢
  rw [Prod.mk.injEq] at hs hp
  cases hgs : m.get statusKey with
  | none =>
    rw [hgs] at hs
    simp [hs.2]
  | some v =>
    rw [hgs] at hs
    cases hgp : m.get terminalTaskPhaseKey with
    | none =>
      rw [hgp] at hp
      simp [hp.2]
    | some w =>
      rw [hgp] at hp
      cases v <;> cases w <;> simp_all [assertStatus, assertPhase]

/-- C1: storing a status and a phase and retrieving them gives the pair back with no error,
in whatever order the loop of the retrieval visits the two entries of the stored map. -/
theorem store_retrieve_roundtrip (fmtV : Value → String) (s : K8sObjectStatus) (p : TaskPhase)
    (m : GoMap) (hm : List.Perm m (StoreK8sObjectStatus s p)) :
    RetrieveK8sObjectStatus fmtV (some m) = (s, p, none) := by
  have hwf : WellFormed m := by
    have h1 : List.Perm (m.map Prod.fst) ((StoreK8sObjectStatus s p).map Prod.fst) := hm.map _
    have h2 : ((StoreK8sObjectStatus s p).map Prod.fst).Nodup := by
      simp [StoreK8sObjectStatus, statusKey_ne_terminalTaskPhaseKey]
    exact h1.nodup_iff.mpr h2
  have hs : m.get statusKey = some (Value.status s) :=
    get_of_mem m hwf _ _ (hm.mem_iff.mpr (by simp [StoreK8sObjectStatus]))
  have hp : m.get terminalTaskPhaseKey = some (Value.phase p) :=
    get_of_mem m hwf _ _ (hm.mem_iff.mpr (by simp [StoreK8sObjectStatus]))
  rw [retrieve_some fmtV m hwf, hs, hp]

/-- C1, at a concrete status and phase: the stored map visited in the other order. -/
theorem store_retrieve_roundtrip_witness :
    List.Perm [(terminalTaskPhaseKey, Value.phase TaskPhase.Success),
        (statusKey, Value.status K8sObjectDeleted)]
      (StoreK8sObjectStatus K8sObjectDeleted TaskPhase.Success) ∧
    RetrieveK8sObjectStatus (fun _ => "")
        (some [(terminalTaskPhaseKey, Value.phase TaskPhase.Success),
          (statusKey, Value.status K8sObjectDeleted)]) =
      (K8sObjectDeleted, TaskPhase.Success, none) :=
  ⟨List.Perm.swap _ _ _,
    store_retrieve_roundtrip (fun _ => "") K8sObjectDeleted TaskPhase.Success _
      (List.Perm.swap _ _ _)⟩

/-- C2: on a non-nil map `RetrieveK8sObjectStatus` returns an error exactly when the entry at
`ObjectStatus` is absent or not a `K8sObjectStatus`, or the entry at `TerminalTaskPhase` is
absent or not a `TaskPhase`; with an error the pair is (`K8sObjectUnknown`,
`TaskPhaseUnknown`), without one it is the two stored values. -/
theorem retrieve_error_iff (fmtV : Value → String) (m : GoMap) (h : WellFormed m) :
    ((RetrieveK8sObjectStatus fmtV (some m)).2.2 ≠ none ↔
      ((∀ s, m.get statusKey ≠ some (Value.status s)) ∨
        (∀ p, m.get terminalTaskPhaseKey ≠ some (Value.phase p)))) ∧
    ((RetrieveK8sObjectStatus fmtV (some m)).2.2 ≠ none →
      (RetrieveK8sObjectStatus fmtV (some m)).1 = K8sObjectUnknown ∧
      (RetrieveK8sObjectStatus fmtV (some m)).2.1 = TaskPhaseUnknown) ∧
    ((RetrieveK8sObjectStatus fmtV (some m)).2.2 = none →
      m.get statusKey = some (Value.status (RetrieveK8sObjectStatus fmtV (some m)).1) ∧
      m.get terminalTaskPhaseKey =
        some (Value.phase (RetrieveK8sObjectStatus fmtV (some m)).2.1)) := by
  rw [retrieve_some fmtV m h]
  cases hgs : m.get statusKey with
  | none => simp
  | some v =>
    cases hgp : m.get terminalTaskPhaseKey with
    | none => cases v <;> simp
    | some w => cases v <;> cases w <;> simp

/-- C2, at a map whose entry at `TerminalTaskPhase` is a string. -/
theorem retrieve_error_iff_witness :
    WellFormed [(statusKey, Value.status K8sObjectExists), (terminalTaskPhaseKey, Value.str "x")] ∧
    (RetrieveK8sObjectStatus (fun _ => "")
      (some [(statusKey, Value.status K8sObjectExists),
        (terminalTaskPhaseKey, Value.str "x")])).2.2 ≠ none :=
  ⟨by decide,
    (retrieve_error_iff (fun _ => "")
      [(statusKey, Value.status K8sObjectExists), (terminalTaskPhaseKey, Value.str "x")]
      (by decide)).1.mpr
      (Or.inr (fun p => by
        rw [get_cons_ne _ _ _ _ (fun e => statusKey_ne_terminalTaskPhaseKey e.symm),
          get_cons_self]
        simp))⟩

/-- C3: on the nil map `RetrieveK8sObjectStatus` returns (`K8sObjectUnknown`,
`TaskPhaseUnknown`) and no error. -/
theorem retrieve_nil (fmtV : Value → String) :
    RetrieveK8sObjectStatus fmtV none = (K8sObjectUnknown, TaskPhaseUnknown, none) := rfl

end k8splugins

/-! ## Theorems: the CoPilot injector -/

namespace flytek8s

/-- The test `Char.isUpper` by the code of the character. -/
theorem isUpper_iff (c : Char) : c.isUpper = true ↔ 65 ≤ c.toNat ∧ c.toNat ≤ 90 := by
  simp only [Char.isUpper, Bool.and_eq_true, decide_eq_true_eq, Char.toNat, ge_iff_le]
  rfl

/-- No character is an upper-case letter after `Char.toLower`. -/
theorem isUpper_toLower (c : Char) : (Char.toLower c).isUpper = false := by
  unfold Char.toLower
  simp only []
  split
  · rename_i h
    generalize c.toNat = n at h
    obtain ⟨h1, h2⟩ := h
    interval_cases n <;> decide
  · rename_i h
    cases hu : c.isUpper with
    | false => rfl
    | true => exact absurd ((isUpper_iff c).mp hu) h

/-- The text `ToLower s` holds no upper-case letter. -/
theorem toLower_no_upper (s : String) (c : Char) (hc : c ∈ (ToLower s).toList) :
    c.isUpper = false := by
  simp only [ToLower, String.toList, List.mem_map] at hc
  obtain ⟨d, _, rfl⟩ := hc
  exact isUpper_toLower d

/-- C4: with a nil or disabled data-loading config `AddCoPilotToPod` returns no error and the
pod spec it was given, and `AddCoPilotToContainer` returns no error and the container it was
given. -/
theorem addCoPilot_disabled_noop {Q VM F : Type} (lib : Library Q VM F)
    (cfg : FlyteCoPilotConfig) (coPilotPod : PodSpec Q) (c : Container Q)
    (iFace : Option (TypedInterface VM)) (taskExecMetadata : TaskExecutionMetadata Q)
    (inputPaths : InputFilePaths) (outputPaths : OutputFilePaths)
    (pilot : Option (DataLoadingConfig F))
    (h : pilot = none ∨ ∃ p, pilot = some p ∧ p.Enabled = false) :
    AddCoPilotToPod lib cfg coPilotPod iFace taskExecMetadata inputPaths outputPaths pilot =
      (coPilotPod, none) ∧
    AddCoPilotToContainer cfg c iFace pilot = (c, none) := by
  rcases h with rfl | ⟨p, rfl, hp⟩
  · exact ⟨rfl, rfl⟩
  · simp [AddCoPilotToPod, AddCoPilotToContainer, hp]

/-- C4, at the sample pod and the sample pilot with `Enabled` false. -/
theorem addCoPilot_disabled_noop_witness :
    AddCoPilotToPod sampleLibrary sampleConfig samplePod (some sampleInterface) sampleMetadata
        sampleInputPaths sampleOutputPaths (some { samplePilot with Enabled := false }) =
      (samplePod, none) ∧
    AddCoPilotToContainer sampleConfig ({ Name := "user" } : Container Nat)
        (some sampleInterface) (some { samplePilot with Enabled := false }) =
      ({ Name := "user" }, none) :=
  addCoPilot_disabled_noop sampleLibrary sampleConfig samplePod { Name := "user" }
    (some sampleInterface) sampleMetadata sampleInputPaths sampleOutputPaths
    (some { samplePilot with Enabled := false }) (Or.inr ⟨_, rfl, rfl⟩)

/-- What `FlyteCoPilotContainer` returns when the CPU and the memory strings parse. -/
theorem flyteCoPilotContainer_ok {Q VM F : Type} (lib : Library Q VM F) (name : String)
    (cfg : FlyteCoPilotConfig) (args : List String) (volumeMounts : List VolumeMount)
    (cpu mem : Q) (hcpu : lib.ParseQuantity cfg.CPU = Except.ok cpu)
    (hmem : lib.ParseQuantity cfg.Memory = Except.ok mem) :
    FlyteCoPilotContainer lib name cfg args volumeMounts =
      ({ Name := cfg.NamePrefix ++ name
         Image := cfg.Image
         Command := ["/bin/flyte-copilot", "--config", "/etc/flyte/config**/*"]
         Args := args
         WorkingDir := "/"
         Resources :=
           { Limits := [(ResourceCPU, cpu), (ResourceMemory, mem)]
             Requests := [(ResourceCPU, cpu), (ResourceMemory, mem)] }
         VolumeMounts := volumeMounts
         TerminationMessagePolicy := "FallbackToLogsOnError"
         ImagePullPolicy := "IfNotPresent" }, none) := by
  simp only [FlyteCoPilotContainer, hcpu, hmem]

/-- What `DownloadCommandArgs` returns when the inputs schema is not nil and serializes. -/
theorem downloadCommandArgs_eq {Q VM F : Type} (lib : Library Q VM F)
    (fromInputsPath outputPrefix : DataReference) (toLocalPath : String) (format : F)
    (inputs : VM) (b : List Nat) (hb : lib.Marshal inputs = Except.ok b) :
    DownloadCommandArgs lib fromInputsPath outputPrefix toLocalPath format (some inputs) =
      (["download", "--from-remote", fromInputsPath, "--to-output-prefix", outputPrefix,
        "--to-local-dir", toLocalPath, "--format", ToLower (lib.FormatString format),
        "--input-interface", lib.EncodeToString b], none) := by
  simp only [DownloadCommandArgs, hb]

/-- What `SidecarCommandArgs` returns when the outputs schema is not nil and serializes. -/
theorem sidecarCommandArgs_eq {Q VM F : Type} (lib : Library Q VM F) (fromLocalPath : String)
    (outputPrefix rawOutputPath : DataReference) (startTimeout : Int) (outputs : VM)
    (b : List Nat) (hb : lib.Marshal outputs = Except.ok b) :
    SidecarCommandArgs lib fromLocalPath outputPrefix rawOutputPath startTimeout (some outputs) =
      (["upload", "--start-timeout", lib.DurationString startTimeout, "--to-raw-output",
        rawOutputPath, "--to-output-prefix", outputPrefix, "--from-local-dir", fromLocalPath,
        "--output-interface", lib.EncodeToString b], none) := by
  simp only [SidecarCommandArgs, hb]

/-- C5: with an enabled config, an interface declaring inputs and outputs that serialize, and
CPU and memory strings that parse, `AddCoPilotToPod` returns no error; the pod has one more
init container, one more container, the config, input and output volumes appended (so at least
three more volumes) and `ShareProcessNamespace` true. -/
theorem addCoPilotToPod_inputs_and_outputs {Q VM F : Type} (lib : Library Q VM F)
    (cfg : FlyteCoPilotConfig) (coPilotPod : PodSpec Q) (iFace : TypedInterface VM)
    (taskExecMetadata : TaskExecutionMetadata Q) (inputPaths : InputFilePaths)
    (outputPaths : OutputFilePaths) (pilot : DataLoadingConfig F)
    (inputs outputs : VM) (cpu mem : Q) (bi bo : List Nat)
    (hen : pilot.Enabled = true)
    (hin : iFace.Inputs = some inputs) (hout : iFace.Outputs = some outputs)
    (hcpu : lib.ParseQuantity cfg.CPU = Except.ok cpu)
    (hmem : lib.ParseQuantity cfg.Memory = Except.ok mem)
    (hbi : lib.Marshal inputs = Except.ok bi) (hbo : lib.Marshal outputs = Except.ok bo) :
    (AddCoPilotToPod lib cfg coPilotPod (some iFace) taskExecMetadata inputPaths outputPaths
      (some pilot)).2 = none ∧
    (AddCoPilotToPod lib cfg coPilotPod (some iFace) taskExecMetadata inputPaths outputPaths
      (some pilot)).1.InitContainers.length = coPilotPod.InitContainers.length + 1 ∧
    (AddCoPilotToPod lib cfg coPilotPod (some iFace) taskExecMetadata inputPaths outputPaths
      (some pilot)).1.Containers.length = coPilotPod.Containers.length + 1 ∧
    (AddCoPilotToPod lib cfg coPilotPod (some iFace) taskExecMetadata inputPaths outputPaths
      (some pilot)).1.Volumes = coPilotPod.Volumes ++
        [cfgVolume,
         DataVolume cfg.InputVolumeName
           (CalculateStorageSize taskExecMetadata.OverridesResources),
         DataVolume cfg.OutputVolumeName
           (CalculateStorageSize taskExecMetadata.OverridesResources)] ∧
    coPilotPod.Volumes.length + 3 ≤
      (AddCoPilotToPod lib cfg coPilotPod (some iFace) taskExecMetadata inputPaths outputPaths
        (some pilot)).1.Volumes.length ∧
    (AddCoPilotToPod lib cfg coPilotPod (some iFace) taskExecMetadata inputPaths outputPaths
      (some pilot)).1.ShareProcessNamespace = some true := by
  have hpod : AddCoPilotToPod lib cfg coPilotPod (some iFace) taskExecMetadata inputPaths
      outputPaths (some pilot) =
      ({ coPilotPod with
          ShareProcessNamespace := some true
          Volumes := coPilotPod.Volumes ++
            [cfgVolume,
             DataVolume cfg.InputVolumeName
               (CalculateStorageSize taskExecMetadata.OverridesResources),
             DataVolume cfg.OutputVolumeName
               (CalculateStorageSize taskExecMetadata.OverridesResources)]
          InitContainers := coPilotPod.InitContainers ++
            [(FlyteCoPilotContainer lib flyteInitContainerName cfg
              (DownloadCommandArgs lib inputPaths.InputPath outputPaths.OutputPrefixPath
                (effectivePath cfg.DefaultInputDataPath pilot.GetInputPath) pilot.Format
                (some inputs)).1
              [{ Name := cfg.InputVolumeName
                 MountPath := effectivePath cfg.DefaultInputDataPath pilot.GetInputPath },
               cfgVMount]).1]
          Containers := coPilotPod.Containers ++
            [(FlyteCoPilotContainer lib flyteSidecarContainerName cfg
              (SidecarCommandArgs lib (effectivePath cfg.DefaultOutputPath pilot.GetOutputPath)
                outputPaths.OutputPrefixPath outputPaths.RawOutputPrefix cfg.StartTimeout
                (some outputs)).1
              [{ Name := cfg.OutputVolumeName
                 MountPath := effectivePath cfg.DefaultOutputPath pilot.GetOutputPath },
               cfgVMount]).1] }, none) := by
    simp only [AddCoPilotToPod, addInputs, addOutputs, hen, hin, hout,
      downloadCommandArgs_eq lib _ _ _ _ inputs bi hbi,
      sidecarCommandArgs_eq lib _ _ _ _ outputs bo hbo,
      flyteCoPilotContainer_ok lib _ cfg _ _ cpu mem hcpu hmem]
    simp
  rw [hpod]
  simp

/-- C5, at the sample pod (one container, no init container, no volume). -/
theorem addCoPilotToPod_inputs_and_outputs_witness :
    (AddCoPilotToPod sampleLibrary sampleConfig samplePod (some sampleInterface) sampleMetadata
      sampleInputPaths sampleOutputPaths (some samplePilot)).2 = none ∧
    (AddCoPilotToPod sampleLibrary sampleConfig samplePod (some sampleInterface) sampleMetadata
      sampleInputPaths sampleOutputPaths (some samplePilot)).1.InitContainers.length = 0 + 1 ∧
    (AddCoPilotToPod sampleLibrary sampleConfig samplePod (some sampleInterface) sampleMetadata
      sampleInputPaths sampleOutputPaths (some samplePilot)).1.Containers.length = 1 + 1 ∧
    (AddCoPilotToPod sampleLibrary sampleConfig samplePod (some sampleInterface) sampleMetadata
      sampleInputPaths sampleOutputPaths (some samplePilot)).1.ShareProcessNamespace =
        some true :=
  have h := addCoPilotToPod_inputs_and_outputs sampleLibrary sampleConfig samplePod
    sampleInterface sampleMetadata sampleInputPaths sampleOutputPaths samplePilot
    ["x", "y"] ["o"] 500 128 [1, 1] [1] rfl rfl rfl rfl rfl rfl rfl
  ⟨h.1, h.2.1, h.2.2.1, h.2.2.2.2.2⟩

/-- C6: for an inputs schema that is not nil and serializes, `DownloadCommandArgs` returns no
error and the eleven arguments `download --from-remote <from> --to-output-prefix <prefix>
--to-local-dir <local> --format <f> --input-interface <enc>` in this order, where `f` is the
lower-cased name of the format, holding no upper-case letter, and `enc` the base64 text of the
serialized schema. -/
theorem downloadCommandArgs_vector {Q VM F : Type} (lib : Library Q VM F)
    (fromInputsPath outputPrefix : DataReference) (toLocalPath : String) (format : F)
    (inputs : VM) (b : List Nat) (hb : lib.Marshal inputs = Except.ok b) :
    DownloadCommandArgs lib fromInputsPath outputPrefix toLocalPath format (some inputs) =
      (["download", "--from-remote", fromInputsPath, "--to-output-prefix", outputPrefix,
        "--to-local-dir", toLocalPath, "--format", ToLower (lib.FormatString format),
        "--input-interface", lib.EncodeToString b], none) ∧
    (DownloadCommandArgs lib fromInputsPath outputPrefix toLocalPath format
      (some inputs)).1.length = 11 ∧
    ∀ c ∈ (ToLower (lib.FormatString format)).toList, c.isUpper = false := by
  refine ⟨downloadCommandArgs_eq lib _ _ _ _ inputs b hb, ?_, ?_⟩
  · rw [downloadCommandArgs_eq lib _ _ _ _ inputs b hb]
    rfl
  · exact fun c hc => toLower_no_upper _ c hc

/-- C6, at the sample inputs with the format named `JSON`, which becomes `json`. -/
theorem downloadCommandArgs_vector_witness :
    sampleLibrary.Marshal ["x", "y"] = Except.ok [1, 1] ∧
    DownloadCommandArgs sampleLibrary "s3://bucket/inputs.pb" "s3://bucket/out"
        "/var/flyte/inputs" 0 (some ["x", "y"]) =
      (["download", "--from-remote", "s3://bucket/inputs.pb", "--to-output-prefix",
        "s3://bucket/out", "--to-local-dir", "/var/flyte/inputs", "--format", "json",
        "--input-interface", "bb"], none) :=
  ⟨rfl, (downloadCommandArgs_vector sampleLibrary "s3://bucket/inputs.pb" "s3://bucket/out"
    "/var/flyte/inputs" 0 ["x", "y"] [1, 1] rfl).1.trans (by decide)⟩

/-- C7: for an outputs schema that is not nil and serializes, `SidecarCommandArgs` returns no
error and the eleven arguments `upload --start-timeout <timeout> --to-raw-output <raw>
--to-output-prefix <prefix> --from-local-dir <local> --output-interface <enc>` in this order,
where the timeout is rendered as a duration string and `enc` is the base64 text of the
serialized schema. -/
theorem sidecarCommandArgs_vector {Q VM F : Type} (lib : Library Q VM F)
    (fromLocalPath : String) (outputPrefix rawOutputPath : DataReference) (startTimeout : Int)
    (outputs : VM) (b : List Nat) (hb : lib.Marshal outputs = Except.ok b) :
    SidecarCommandArgs lib fromLocalPath outputPrefix rawOutputPath startTimeout (some outputs) =
      (["upload", "--start-timeout", lib.DurationString startTimeout, "--to-raw-output",
        rawOutputPath, "--to-output-prefix", outputPrefix, "--from-local-dir", fromLocalPath,
        "--output-interface", lib.EncodeToString b], none) ∧
    (SidecarCommandArgs lib fromLocalPath outputPrefix rawOutputPath startTimeout
      (some outputs)).1.length = 11 := by
  refine ⟨sidecarCommandArgs_eq lib _ _ _ _ outputs b hb, ?_⟩
  rw [sidecarCommandArgs_eq lib _ _ _ _ outputs b hb]
  rfl

/-- C7, at the sample outputs and a start timeout of one minute. -/
theorem sidecarCommandArgs_vector_witness :
    sampleLibrary.Marshal ["o"] = Except.ok [1] ∧
    SidecarCommandArgs sampleLibrary "/var/flyte/outputs" "s3://bucket/out" "s3://bucket/raw"
        60000000000 (some ["o"]) =
      (["upload", "--start-timeout", "1m0s", "--to-raw-output", "s3://bucket/raw",
        "--to-output-prefix", "s3://bucket/out", "--from-local-dir", "/var/flyte/outputs",
        "--output-interface", "b"], none) :=
  ⟨rfl, (sidecarCommandArgs_vector sampleLibrary "/var/flyte/outputs" "s3://bucket/out"
    "s3://bucket/raw" 60000000000 ["o"] [1] rfl).1.trans (by decide)⟩

/-- C8: with a nil schema `DownloadCommandArgs` and `SidecarCommandArgs` return an error and
no argument vector, whatever the other arguments; and for a schema whose serialization
succeeds whenever it is not nil, each of them returns an error only when the schema is nil. -/
theorem commandArgs_error_iff_nil {Q VM F : Type} (lib : Library Q VM F)
    (fromInputsPath outputPrefix rawOutputPath : DataReference)
    (toLocalPath fromLocalPath : String) (format : F) (startTimeout : Int) :
    (∃ err, DownloadCommandArgs lib fromInputsPath outputPrefix toLocalPath format none =
      ([], some err)) ∧
    (∃ err, SidecarCommandArgs lib fromLocalPath outputPrefix rawOutputPath startTimeout none =
      ([], some err)) ∧
    (∀ schema : Option VM,
      (∀ v, schema = some v → ∃ b, lib.Marshal v = Except.ok b) →
        ((DownloadCommandArgs lib fromInputsPath outputPrefix toLocalPath format schema).2 ≠ none
          ↔ schema = none) ∧
        ((SidecarCommandArgs lib fromLocalPath outputPrefix rawOutputPath startTimeout
          schema).2 ≠ none ↔ schema = none)) := by
  refine ⟨⟨_, rfl⟩, ⟨_, rfl⟩, ?_⟩
  intro schema hser
  cases schema with
  | none => simp [DownloadCommandArgs, SidecarCommandArgs]
  | some v =>
    obtain ⟨b, hb⟩ := hser v rfl
    simp [downloadCommandArgs_eq lib _ _ _ _ v b hb, sidecarCommandArgs_eq lib _ _ _ _ v b hb]

/-- C8, at a sample schema, which serializes in the sample library. -/
theorem commandArgs_error_iff_nil_witness :
    (∀ v, some ["x"] = some v → ∃ b, sampleLibrary.Marshal v = Except.ok b) ∧
    ((DownloadCommandArgs sampleLibrary "s3://bucket/inputs.pb" "s3://bucket/out"
      "/var/flyte/inputs" 0 (some ["x"])).2 ≠ none ↔ some ["x"] = (none : Option (List String))) :=
  ⟨fun _ _ => ⟨_, rfl⟩,
    (((commandArgs_error_iff_nil sampleLibrary "s3://bucket/inputs.pb" "s3://bucket/out"
      "s3://bucket/raw" "/var/flyte/inputs" "/var/flyte/outputs" 0 0).2.2 (some ["x"])
        (fun _ _ => ⟨_, rfl⟩))).1⟩

/-- C9: when the CPU and the memory strings of the fragment config parse,
`FlyteCoPilotContainer` returns no error, and the requests of the container are its limits:
the parsed CPU at `cpu`, the parsed memory at `memory`, and no other entry. -/
theorem flyteCoPilotContainer_requests_eq_limits {Q VM F : Type} (lib : Library Q VM F)
    (name : String) (cfg : FlyteCoPilotConfig) (args : List String)
    (volumeMounts : List VolumeMount) (cpu mem : Q)
    (hcpu : lib.ParseQuantity cfg.CPU = Except.ok cpu)
    (hmem : lib.ParseQuantity cfg.Memory = Except.ok mem) :
    (FlyteCoPilotContainer lib name cfg args volumeMounts).2 = none ∧
    (FlyteCoPilotContainer lib name cfg args volumeMounts).1.Resources.Requests =
      (FlyteCoPilotContainer lib name cfg args volumeMounts).1.Resources.Limits ∧
    (FlyteCoPilotContainer lib name cfg args volumeMounts).1.Resources.Limits =
      [(ResourceCPU, cpu), (ResourceMemory, mem)] := by
  rw [flyteCoPilotContainer_ok lib name cfg args volumeMounts cpu mem hcpu hmem]
  exact ⟨rfl, rfl, rfl⟩

/-- C9, at the sample config. -/
theorem flyteCoPilotContainer_requests_eq_limits_witness :
    sampleLibrary.ParseQuantity sampleConfig.CPU = Except.ok 500 ∧
    sampleLibrary.ParseQuantity sampleConfig.Memory = Except.ok 128 ∧
    (FlyteCoPilotContainer sampleLibrary "sidecar" sampleConfig ["upload"] []).1.Resources.Limits
      = [("cpu", 500), ("memory", 128)] :=
  ⟨rfl, rfl, (flyteCoPilotContainer_requests_eq_limits sampleLibrary "sidecar" sampleConfig
    ["upload"] [] 500 128 rfl rfl).2.2⟩

/-- C10: when the CPU string or the memory string of the fragment config does not parse,
`FlyteCoPilotContainer` returns an error and the zero-valued container, whatever the name,
the arguments and the mounts. -/
theorem flyteCoPilotContainer_parse_error {Q VM F : Type} (lib : Library Q VM F)
    (name : String) (cfg : FlyteCoPilotConfig) (args : List String)
    (volumeMounts : List VolumeMount)
    (h : (∃ err, lib.ParseQuantity cfg.CPU = Except.error err) ∨
      (∃ err, lib.ParseQuantity cfg.Memory = Except.error err)) :
    ∃ err, FlyteCoPilotContainer lib name cfg args volumeMounts = ({}, some err) := by
  cases hc : lib.ParseQuantity cfg.CPU with
  | error e => exact ⟨e, by simp only [FlyteCoPilotContainer, hc]⟩
  | ok cpu =>
    rcases h with ⟨e, he⟩ | ⟨e, he⟩
    · rw [hc] at he
      cases he
    · exact ⟨e, by simp only [FlyteCoPilotContainer, hc, he]⟩

/-- C10, at the sample config with a memory string that does not parse. -/
theorem flyteCoPilotContainer_parse_error_witness :
    (∃ err, sampleLibrary.ParseQuantity sampleBadConfig.Memory = Except.error err) ∧
    ∃ err, FlyteCoPilotContainer sampleLibrary "sidecar" sampleBadConfig ["upload"]
      [cfgVMount] = ({}, some err) :=
  ⟨⟨_, rfl⟩, flyteCoPilotContainer_parse_error sampleLibrary "sidecar" sampleBadConfig
    ["upload"] [cfgVMount] (Or.inr ⟨_, rfl⟩)⟩

end flytek8s

/-! ## Theorems: the blocks of the CoPilot injector -/

namespace flytek8s

/-- The two outcomes of `FlyteCoPilotContainer`: a parse error with the zero-valued container,
or the filled container. -/
theorem flyteCoPilotContainer_cases {Q VM F : Type} (lib : Library Q VM F) (name : String)
    (cfg : FlyteCoPilotConfig) (args : List String) (volumeMounts : List VolumeMount) :
    (∃ err, FlyteCoPilotContainer lib name cfg args volumeMounts = ({}, some err) ∧
      ((∃ e, lib.ParseQuantity cfg.CPU = Except.error e) ∨
        (∃ e, lib.ParseQuantity cfg.Memory = Except.error e))) ∨
    (∃ c, FlyteCoPilotContainer lib name cfg args volumeMounts = (c, none) ∧
      c.Name = cfg.NamePrefix ++ name ∧ c.Args = args ∧ c.VolumeMounts = volumeMounts ∧
      (∃ cpu, lib.ParseQuantity cfg.CPU = Except.ok cpu) ∧
      (∃ mem, lib.ParseQuantity cfg.Memory = Except.ok mem)) := by
  cases hc : lib.ParseQuantity cfg.CPU with
  | error e =>
    exact Or.inl ⟨e, by simp only [FlyteCoPilotContainer, hc], Or.inl ⟨e, rfl⟩⟩
  | ok cpu =>
    cases hm : lib.ParseQuantity cfg.Memory with
    | error e =>
      exact Or.inl ⟨e, by simp only [FlyteCoPilotContainer, hc, hm], Or.inr ⟨e, rfl⟩⟩
    | ok mem =>
      exact Or.inr ⟨_, flyteCoPilotContainer_ok lib name cfg args volumeMounts cpu mem hc hm,
        rfl, rfl, rfl, ⟨cpu, rfl⟩, ⟨mem, rfl⟩⟩

/-- The two outcomes of `DownloadCommandArgs` on a schema that is not nil. -/
theorem downloadCommandArgs_cases {Q VM F : Type} (lib : Library Q VM F)
    (fromInputsPath outputPrefix : DataReference) (toLocalPath : String) (format : F)
    (inputs : VM) :
    (∃ err, DownloadCommandArgs lib fromInputsPath outputPrefix toLocalPath format
        (some inputs) = ([], some err) ∧ ∃ e, lib.Marshal inputs = Except.error e) ∨
    (∃ args, DownloadCommandArgs lib fromInputsPath outputPrefix toLocalPath format
        (some inputs) = (args, none) ∧ ∃ b, lib.Marshal inputs = Except.ok b) := by
  cases hm : lib.Marshal inputs with
  | error e =>
    exact Or.inl ⟨Wrap e "failed to marshal given input interface",
      by simp only [DownloadCommandArgs, hm], ⟨e, rfl⟩⟩
  | ok b => exact Or.inr ⟨_, downloadCommandArgs_eq lib _ _ _ _ inputs b hm, ⟨b, rfl⟩⟩

/-- The two outcomes of `SidecarCommandArgs` on a schema that is not nil. -/
theorem sidecarCommandArgs_cases {Q VM F : Type} (lib : Library Q VM F) (fromLocalPath : String)
    (outputPrefix rawOutputPath : DataReference) (startTimeout : Int) (outputs : VM) :
    (∃ err, SidecarCommandArgs lib fromLocalPath outputPrefix rawOutputPath startTimeout
        (some outputs) = ([], some err) ∧ ∃ e, lib.Marshal outputs = Except.error e) ∨
    (∃ args, SidecarCommandArgs lib fromLocalPath outputPrefix rawOutputPath startTimeout
        (some outputs) = (args, none) ∧ ∃ b, lib.Marshal outputs = Except.ok b) := by
  cases hm : lib.Marshal outputs with
  | error e =>
    exact Or.inl ⟨Wrap e "failed to marshal given output interface",
      by simp only [SidecarCommandArgs, hm], ⟨e, rfl⟩⟩
  | ok b => exact Or.inr ⟨_, sidecarCommandArgs_eq lib _ _ _ _ outputs b hm, ⟨b, rfl⟩⟩

/-- The block of the inputs, by its outcome. Without declared inputs it does nothing. With
declared inputs it appends the input volume, and then either appends the downloader and
succeeds, or fails (the schema does not serialize, or a quantity does not parse) with no
init container appended. -/
theorem addInputs_cases {Q VM F : Type} (lib : Library Q VM F) (cfg : FlyteCoPilotConfig)
    (pod : PodSpec Q) (iFace : TypedInterface VM) (md : TaskExecutionMetadata Q)
    (ip : InputFilePaths) (op : OutputFilePaths) (pilot : DataLoadingConfig F) :
    (iFace.Inputs = none ∧ addInputs lib cfg pod iFace md ip op pilot = (pod, none)) ∨
    (∃ i dl, iFace.Inputs = some i ∧
      addInputs lib cfg pod iFace md ip op pilot =
        ({ pod with
            Volumes := pod.Volumes ++
              [DataVolume cfg.InputVolumeName (CalculateStorageSize md.OverridesResources)]
            InitContainers := pod.InitContainers ++ [dl] }, none) ∧
      dl.Name = cfg.NamePrefix ++ flyteInitContainerName ∧
      dl.VolumeMounts =
        [{ Name := cfg.InputVolumeName
           MountPath := effectivePath cfg.DefaultInputDataPath pilot.GetInputPath },
         cfgVMount] ∧
      (∃ b, lib.Marshal i = Except.ok b) ∧
      (∃ cpu, lib.ParseQuantity cfg.CPU = Except.ok cpu) ∧
      (∃ mem, lib.ParseQuantity cfg.Memory = Except.ok mem)) ∨
    (∃ i err, iFace.Inputs = some i ∧
      addInputs lib cfg pod iFace md ip op pilot =
        ({ pod with
            Volumes := pod.Volumes ++
              [DataVolume cfg.InputVolumeName (CalculateStorageSize md.OverridesResources)] },
          some err) ∧
      ((∃ e, lib.Marshal i = Except.error e) ∨
        (∃ e, lib.ParseQuantity cfg.CPU = Except.error e) ∨
        (∃ e, lib.ParseQuantity cfg.Memory = Except.error e))) := by
  cases hi : iFace.Inputs with
  | none => exact Or.inl ⟨rfl, by simp only [addInputs, hi]⟩
  | some i =>
    right
    rcases downloadCommandArgs_cases lib ip.InputPath op.OutputPrefixPath
      (effectivePath cfg.DefaultInputDataPath pilot.GetInputPath) pilot.Format i with
      ⟨err, ha, hm⟩ | ⟨args, ha, hm⟩
    · exact Or.inr ⟨i, err, rfl, by simp only [addInputs, hi, ha], Or.inl hm⟩
    · rcases flyteCoPilotContainer_cases lib flyteInitContainerName cfg args
        [{ Name := cfg.InputVolumeName
           MountPath := effectivePath cfg.DefaultInputDataPath pilot.GetInputPath },
         cfgVMount] with ⟨err, hc, hp⟩ | ⟨c, hc, hn, _, hv, hcpu, hmem⟩
      · exact Or.inr ⟨i, err, rfl, by simp only [addInputs, hi, ha, hc], Or.inr hp⟩
      · exact Or.inl ⟨i, c, rfl, by simp only [addInputs, hi, ha, hc], hn, hv, hm, hcpu, hmem⟩

/-- The block of the outputs, by its outcome. -/
theorem addOutputs_cases {Q VM F : Type} (lib : Library Q VM F) (cfg : FlyteCoPilotConfig)
    (pod : PodSpec Q) (iFace : TypedInterface VM) (md : TaskExecutionMetadata Q)
    (op : OutputFilePaths) (pilot : DataLoadingConfig F) :
    (iFace.Outputs = none ∧ addOutputs lib cfg pod iFace md op pilot = (pod, none)) ∨
    (∃ o sc, iFace.Outputs = some o ∧
      addOutputs lib cfg pod iFace md op pilot =
        ({ pod with
            Volumes := pod.Volumes ++
              [DataVolume cfg.OutputVolumeName (CalculateStorageSize md.OverridesResources)]
            Containers := pod.Containers ++ [sc] }, none) ∧
      sc.Name = cfg.NamePrefix ++ flyteSidecarContainerName ∧
      sc.VolumeMounts =
        [{ Name := cfg.OutputVolumeName
           MountPath := effectivePath cfg.DefaultOutputPath pilot.GetOutputPath },
         cfgVMount] ∧
      (∃ b, lib.Marshal o = Except.ok b) ∧
      (∃ cpu, lib.ParseQuantity cfg.CPU = Except.ok cpu) ∧
      (∃ mem, lib.ParseQuantity cfg.Memory = Except.ok mem)) ∨
    (∃ o err, iFace.Outputs = some o ∧
      addOutputs lib cfg pod iFace md op pilot =
        ({ pod with
            Volumes := pod.Volumes ++
              [DataVolume cfg.OutputVolumeName (CalculateStorageSize md.OverridesResources)] },
          some err) ∧
      ((∃ e, lib.Marshal o = Except.error e) ∨
        (∃ e, lib.ParseQuantity cfg.CPU = Except.error e) ∨
        (∃ e, lib.ParseQuantity cfg.Memory = Except.error e))) := by
  cases ho : iFace.Outputs with
  | none => exact Or.inl ⟨rfl, by simp only [addOutputs, ho]⟩
  | some o =>
    right
    rcases sidecarCommandArgs_cases lib
      (effectivePath cfg.DefaultOutputPath pilot.GetOutputPath) op.OutputPrefixPath
      op.RawOutputPrefix cfg.StartTimeout o with ⟨err, ha, hm⟩ | ⟨args, ha, hm⟩
    · exact Or.inr ⟨o, err, rfl, by simp only [addOutputs, ho, ha], Or.inl hm⟩
    · rcases flyteCoPilotContainer_cases lib flyteSidecarContainerName cfg args
        [{ Name := cfg.OutputVolumeName
           MountPath := effectivePath cfg.DefaultOutputPath pilot.GetOutputPath },
         cfgVMount] with ⟨err, hc, hp⟩ | ⟨c, hc, hn, _, hv, hcpu, hmem⟩
      · exact Or.inr ⟨o, err, rfl, by simp only [addOutputs, ho, ha, hc], Or.inr hp⟩
      · exact Or.inl ⟨o, c, rfl, by simp only [addOutputs, ho, ha, hc], hn, hv, hm, hcpu, hmem⟩

/-- With an enabled config and an interface, `AddCoPilotToPod` is the block of the inputs
followed, when it does not fail, by the block of the outputs, on the pod with the flag set and
the config volume appended when a side is declared. -/
theorem addCoPilotToPod_enabled_eq {Q VM F : Type} (lib : Library Q VM F)
    (cfg : FlyteCoPilotConfig) (pod : PodSpec Q) (iFace : TypedInterface VM)
    (md : TaskExecutionMetadata Q) (ip : InputFilePaths) (op : OutputFilePaths)
    (pilot : DataLoadingConfig F) (hen : pilot.Enabled = true) :
    AddCoPilotToPod lib cfg pod (some iFace) md ip op (some pilot) =
      if (addInputs lib cfg
          (if iFace.Inputs.isSome || iFace.Outputs.isSome then
            { pod with ShareProcessNamespace := some true, Volumes := pod.Volumes ++ [cfgVolume] }
           else { pod with ShareProcessNamespace := some true }) iFace md ip op pilot).2 = none
      then
        addOutputs lib cfg
          (addInputs lib cfg
            (if iFace.Inputs.isSome || iFace.Outputs.isSome then
              { pod with ShareProcessNamespace := some true,
                         Volumes := pod.Volumes ++ [cfgVolume] }
             else { pod with ShareProcessNamespace := some true }) iFace md ip op pilot).1
          iFace md op pilot
      else
        addInputs lib cfg
          (if iFace.Inputs.isSome || iFace.Outputs.isSome then
            { pod with ShareProcessNamespace := some true, Volumes := pod.Volumes ++ [cfgVolume] }
           else { pod with ShareProcessNamespace := some true }) iFace md ip op pilot := by
  simp only [AddCoPilotToPod, hen, Bool.not_true, Bool.false_eq_true, if_false]
  generalize addInputs lib cfg _ iFace md ip op pilot = r
  rcases r with ⟨p, _ | e⟩ <;> simp

/-- The result of `AddCoPilotToPod` with an enabled config and an interface, in normal form:
the pod with the flag set and with volumes, init containers and containers appended. Every
appended volume is the config volume or a data volume sized by `CalculateStorageSize`; every
appended container was built from quantities that parse, under the configured name and with the
data mount of its side and the config mount. Without an error the appended volumes are those
of the declared sides and each declared side has its one container; with an error no container
is appended, a side is declared, and a schema did not serialize or a quantity did not parse. -/
theorem addCoPilotToPod_enabled_cases {Q VM F : Type} (lib : Library Q VM F)
    (cfg : FlyteCoPilotConfig) (pod : PodSpec Q) (iFace : TypedInterface VM)
    (md : TaskExecutionMetadata Q) (ip : InputFilePaths) (op : OutputFilePaths)
    (pilot : DataLoadingConfig F) (hen : pilot.Enabled = true) :
    ∃ vs ics cs err,
      AddCoPilotToPod lib cfg pod (some iFace) md ip op (some pilot) =
        ({ pod with
            ShareProcessNamespace := some true
            Volumes := pod.Volumes ++ vs
            InitContainers := pod.InitContainers ++ ics
            Containers := pod.Containers ++ cs }, err) ∧
      (∀ v ∈ vs, v = cfgVolume ∨
        v = DataVolume cfg.InputVolumeName (CalculateStorageSize md.OverridesResources) ∨
        v = DataVolume cfg.OutputVolumeName (CalculateStorageSize md.OverridesResources)) ∧
      (∀ c ∈ ics, c.Name = cfg.NamePrefix ++ flyteInitContainerName ∧
        c.VolumeMounts =
          [{ Name := cfg.InputVolumeName
             MountPath := effectivePath cfg.DefaultInputDataPath pilot.GetInputPath },
           cfgVMount] ∧
        (∃ cpu, lib.ParseQuantity cfg.CPU = Except.ok cpu) ∧
        (∃ mem, lib.ParseQuantity cfg.Memory = Except.ok mem)) ∧
      (∀ c ∈ cs, c.Name = cfg.NamePrefix ++ flyteSidecarContainerName ∧
        c.VolumeMounts =
          [{ Name := cfg.OutputVolumeName
             MountPath := effectivePath cfg.DefaultOutputPath pilot.GetOutputPath },
           cfgVMount] ∧
        (∃ cpu, lib.ParseQuantity cfg.CPU = Except.ok cpu) ∧
        (∃ mem, lib.ParseQuantity cfg.Memory = Except.ok mem)) ∧
      (err = none →
        vs = (if iFace.Inputs.isSome || iFace.Outputs.isSome then [cfgVolume] else []) ++
          (if iFace.Inputs.isSome then
            [DataVolume cfg.InputVolumeName (CalculateStorageSize md.OverridesResources)]
           else []) ++
          (if iFace.Outputs.isSome then
            [DataVolume cfg.OutputVolumeName (CalculateStorageSize md.OverridesResources)]
           else []) ∧
        ics.length = (if iFace.Inputs.isSome then 1 else 0) ∧
        cs.length = (if iFace.Outputs.isSome then 1 else 0)) ∧
      (err ≠ none →
        cs = [] ∧ (iFace.Inputs.isSome ∨ iFace.Outputs.isSome) ∧
        ((∃ v e, (iFace.Inputs = some v ∨ iFace.Outputs = some v) ∧
            lib.Marshal v = Except.error e) ∨
          (∃ e, lib.ParseQuantity cfg.CPU = Except.error e) ∨
          (∃ e, lib.ParseQuantity cfg.Memory = Except.error e))) := by
  rw [addCoPilotToPod_enabled_eq lib cfg pod iFace md ip op pilot hen]
  generalize hP : (if iFace.Inputs.isSome || iFace.Outputs.isSome then
      ({ pod with ShareProcessNamespace := some true, Volumes := pod.Volumes ++ [cfgVolume] } :
        PodSpec Q)
    else { pod with ShareProcessNamespace := some true }) = P
  rcases addInputs_cases lib cfg P iFace md ip op pilot with
    ⟨hi, hA⟩ | ⟨i, dl, hi, hA, hn, hv, _, hcpu, hmem⟩ | ⟨i, e1, hi, hA, hfail⟩
  · rw [hA]
    simp only [if_true]
    rcases addOutputs_cases lib cfg P iFace md op pilot with
      ⟨ho, hB⟩ | ⟨o, sc, ho, hB, hn2, hv2, _, hcpu2, hmem2⟩ | ⟨o, e2, ho, hB, hfail2⟩
    · refine ⟨[], [], [], none, ?_, ?_, ?_, ?_, ?_, ?_⟩
      · rw [hB]; subst hP; simp [hi, ho]
      all_goals simp [hi, ho]
    · refine ⟨[cfgVolume, DataVolume cfg.OutputVolumeName
        (CalculateStorageSize md.OverridesResources)], [], [sc], none, ?_, ?_, ?_, ?_, ?_, ?_⟩
      · rw [hB]; subst hP; simp [hi, ho]
      · simp
      · simp
      · simpa using ⟨hn2, hv2, hcpu2, hmem2⟩
      · simp [hi, ho]
      · simp
    · refine ⟨[cfgVolume, DataVolume cfg.OutputVolumeName
        (CalculateStorageSize md.OverridesResources)], [], [], some e2, ?_, ?_, ?_, ?_, ?_, ?_⟩
      · rw [hB]; subst hP; simp [hi, ho]
      · simp
      · simp
      · simp
      · simp
      · intro _
        refine ⟨rfl, Or.inr (by simp [ho]), ?_⟩
        rcases hfail2 with ⟨e, he⟩ | h
        · exact Or.inl ⟨o, e, Or.inr ho, he⟩
        · exact Or.inr h
  · rw [hA]
    simp only [if_true]
    rcases addOutputs_cases lib cfg
        { P with
            Volumes := P.Volumes ++
              [DataVolume cfg.InputVolumeName (CalculateStorageSize md.OverridesResources)]
            InitContainers := P.InitContainers ++ [dl] } iFace md op pilot with
      ⟨ho, hB⟩ | ⟨o, sc, ho, hB, hn2, hv2, _, hcpu2, hmem2⟩ | ⟨o, e2, ho, hB, hfail2⟩
    · refine ⟨[cfgVolume, DataVolume cfg.InputVolumeName
        (CalculateStorageSize md.OverridesResources)], [dl], [], none, ?_, ?_, ?_, ?_, ?_, ?_⟩
      · rw [hB]; subst hP; simp [hi, ho]
      · simp
      · simpa using ⟨hn, hv, hcpu, hmem⟩
      · simp
      · simp [hi, ho]
      · simp
    · refine ⟨[cfgVolume,
        DataVolume cfg.InputVolumeName (CalculateStorageSize md.OverridesResources),
        DataVolume cfg.OutputVolumeName (CalculateStorageSize md.OverridesResources)],
        [dl], [sc], none, ?_, ?_, ?_, ?_, ?_, ?_⟩
      · rw [hB]; subst hP; simp [hi, ho]
      · simp
      · simpa using ⟨hn, hv, hcpu, hmem⟩
      · simpa using ⟨hn2, hv2, hcpu2, hmem2⟩
      · simp [hi, ho]
      · simp
    · refine ⟨[cfgVolume,
        DataVolume cfg.InputVolumeName (CalculateStorageSize md.OverridesResources),
        DataVolume cfg.OutputVolumeName (CalculateStorageSize md.OverridesResources)],
        [dl], [], some e2, ?_, ?_, ?_, ?_, ?_, ?_⟩
      · rw [hB]; subst hP; simp [hi, ho]
      · simp
      · simpa using ⟨hn, hv, hcpu, hmem⟩
      · simp
      · simp
      · intro _
        refine ⟨rfl, Or.inr (by simp [ho]), ?_⟩
        rcases hfail2 with ⟨e, he⟩ | h
        · exact Or.inl ⟨o, e, Or.inr ho, he⟩
        · exact Or.inr h
  · rw [hA]
    simp only [reduceCtorEq, if_false]
    refine ⟨(if iFace.Inputs.isSome || iFace.Outputs.isSome then [cfgVolume] else []) ++
      [DataVolume cfg.InputVolumeName (CalculateStorageSize md.OverridesResources)],
      [], [], some e1, ?_, ?_, ?_, ?_, ?_, ?_⟩
    · subst hP; simp [hi]
    · simp [hi]
    · simp
    · simp
    · simp
    · intro _
      refine ⟨rfl, Or.inl (by simp [hi]), ?_⟩
      rcases hfail with ⟨e, he⟩ | h
      · exact Or.inl ⟨i, e, Or.inl hi, he⟩
      · exact Or.inr h

/-- The pod of the two blocks when both sides are declared, the schemas serialize and the
quantities parse. -/
theorem addCoPilotToPod_both_eq {Q VM F : Type} (lib : Library Q VM F)
    (cfg : FlyteCoPilotConfig) (pod : PodSpec Q) (iFace : TypedInterface VM)
    (md : TaskExecutionMetadata Q) (ip : InputFilePaths) (op : OutputFilePaths)
    (pilot : DataLoadingConfig F) (inputs outputs : VM) (cpu mem : Q) (bi bo : List Nat)
    (hen : pilot.Enabled = true)
    (hin : iFace.Inputs = some inputs) (hout : iFace.Outputs = some outputs)
    (hcpu : lib.ParseQuantity cfg.CPU = Except.ok cpu)
    (hmem : lib.ParseQuantity cfg.Memory = Except.ok mem)
    (hbi : lib.Marshal inputs = Except.ok bi) (hbo : lib.Marshal outputs = Except.ok bo) :
    AddCoPilotToPod lib cfg pod (some iFace) md ip op (some pilot) =
      ({ pod with
          ShareProcessNamespace := some true
          Volumes := pod.Volumes ++
            [cfgVolume,
             DataVolume cfg.InputVolumeName (CalculateStorageSize md.OverridesResources),
             DataVolume cfg.OutputVolumeName (CalculateStorageSize md.OverridesResources)]
          InitContainers := pod.InitContainers ++
            [(FlyteCoPilotContainer lib flyteInitContainerName cfg
              (DownloadCommandArgs lib ip.InputPath op.OutputPrefixPath
                (effectivePath cfg.DefaultInputDataPath pilot.GetInputPath) pilot.Format
                (some inputs)).1
              [{ Name := cfg.InputVolumeName
                 MountPath := effectivePath cfg.DefaultInputDataPath pilot.GetInputPath },
               cfgVMount]).1]
          Containers := pod.Containers ++
            [(FlyteCoPilotContainer lib flyteSidecarContainerName cfg
              (SidecarCommandArgs lib (effectivePath cfg.DefaultOutputPath pilot.GetOutputPath)
                op.OutputPrefixPath op.RawOutputPrefix cfg.StartTimeout (some outputs)).1
              [{ Name := cfg.OutputVolumeName
                 MountPath := effectivePath cfg.DefaultOutputPath pilot.GetOutputPath },
               cfgVMount]).1] }, none) := by
  simp only [AddCoPilotToPod, addInputs, addOutputs, hen, hin, hout,
    downloadCommandArgs_eq lib _ _ _ _ inputs bi hbi,
    sidecarCommandArgs_eq lib _ _ _ _ outputs bo hbo,
    flyteCoPilotContainer_ok lib _ cfg _ _ cpu mem hcpu hmem]
  simp

/-! ## Theorems: the CoPilot injector, continued -/

/-- With an enabled config and declared inputs the input volume is among the volumes that
`AddCoPilotToPod` appends, whether it then fails or not. -/
theorem addCoPilotToPod_input_volume {Q VM F : Type} (lib : Library Q VM F)
    (cfg : FlyteCoPilotConfig) (pod : PodSpec Q) (iFace : TypedInterface VM)
    (md : TaskExecutionMetadata Q) (ip : InputFilePaths) (op : OutputFilePaths)
    (pilot : DataLoadingConfig F) (hen : pilot.Enabled = true)
    (hi : iFace.Inputs.isSome = true) :
    DataVolume cfg.InputVolumeName (CalculateStorageSize md.OverridesResources) ∈
      (AddCoPilotToPod lib cfg pod (some iFace) md ip op (some pilot)).1.Volumes.drop
        pod.Volumes.length := by
  rw [addCoPilotToPod_enabled_eq lib cfg pod iFace md ip op pilot hen]
  simp only [hi, Bool.true_or, if_true]
  rcases addInputs_cases lib cfg
      { pod with ShareProcessNamespace := some true, Volumes := pod.Volumes ++ [cfgVolume] }
      iFace md ip op pilot with
    ⟨hn, -⟩ | ⟨i, dl, -, hA, -⟩ | ⟨i, e1, -, hA, -⟩
  · rw [hn] at hi
    cases hi
  · rw [hA]
    simp only [if_true]
    rcases addOutputs_cases lib cfg
        { pod with
            ShareProcessNamespace := some true
            Volumes := pod.Volumes ++ [cfgVolume] ++
              [DataVolume cfg.InputVolumeName (CalculateStorageSize md.OverridesResources)]
            InitContainers := pod.InitContainers ++ [dl] } iFace md op pilot with
      ⟨-, hB⟩ | ⟨o, sc, -, hB, -⟩ | ⟨o, e2, -, hB, -⟩ <;>
    · rw [hB]
      simp [List.append_assoc]
  · rw [hA]
    simp [List.append_assoc]

/-- C11: `CalculateStorageSize` is nil for nil requirements, the storage entry of `Limits` when
there is one (whatever `Requests` holds), otherwise the storage entry of `Requests` when there
is one, otherwise nil. With an enabled config, every volume that `AddCoPilotToPod` appends is
the config volume, or the volume of the input volume name, or the volume of the output volume
name, the latter two with an empty-directory source of the default medium whose size limit is
this value; the input volume is appended whenever inputs are declared, and the output volume
whenever outputs are declared and the call returns no error. -/
theorem calculateStorageSize_fallthrough {Q VM F : Type} (lib : Library Q VM F)
    (cfg : FlyteCoPilotConfig) (pod : PodSpec Q) (iFace : TypedInterface VM)
    (md : TaskExecutionMetadata Q) (ip : InputFilePaths) (op : OutputFilePaths)
    (pilot : DataLoadingConfig F) :
    CalculateStorageSize (none : Option (ResourceRequirements Q)) = none ∧
    (∀ (r : ResourceRequirements Q) (q : Q),
      List.lookup ResourceStorage r.Limits = some q → CalculateStorageSize (some r) = some q) ∧
    (∀ (r : ResourceRequirements Q) (q : Q),
      List.lookup ResourceStorage r.Limits = none →
      List.lookup ResourceStorage r.Requests = some q →
      CalculateStorageSize (some r) = some q) ∧
    (∀ r : ResourceRequirements Q,
      List.lookup ResourceStorage r.Limits = none →
      List.lookup ResourceStorage r.Requests = none →
      CalculateStorageSize (some r) = none) ∧
    (pilot.Enabled = true →
      (∀ v ∈ (AddCoPilotToPod lib cfg pod (some iFace) md ip op (some pilot)).1.Volumes.drop
          pod.Volumes.length,
        v = { Name := "data-config-volume"
              VolumeSource := { ConfigMap := some { Name := "flyte-data-config" } } } ∨
        v = { Name := cfg.InputVolumeName
              VolumeSource :=
                { EmptyDir := some
                    { Medium := ""
                      SizeLimit := CalculateStorageSize md.OverridesResources } } } ∨
        v = { Name := cfg.OutputVolumeName
              VolumeSource :=
                { EmptyDir := some
                    { Medium := ""
                      SizeLimit := CalculateStorageSize md.OverridesResources } } }) ∧
      (iFace.Inputs.isSome = true →
        ({ Name := cfg.InputVolumeName
           VolumeSource :=
             { EmptyDir := some
                 { Medium := ""
                   SizeLimit := CalculateStorageSize md.OverridesResources } } } : Volume Q) ∈
          (AddCoPilotToPod lib cfg pod (some iFace) md ip op (some pilot)).1.Volumes.drop
            pod.Volumes.length) ∧
      ((AddCoPilotToPod lib cfg pod (some iFace) md ip op (some pilot)).2 = none →
        iFace.Outputs.isSome = true →
        ({ Name := cfg.OutputVolumeName
           VolumeSource :=
             { EmptyDir := some
                 { Medium := ""
                   SizeLimit := CalculateStorageSize md.OverridesResources } } } : Volume Q) ∈
          (AddCoPilotToPod lib cfg pod (some iFace) md ip op (some pilot)).1.Volumes.drop
            pod.Volumes.length)) := by
  refine ⟨rfl, ?_, ?_, ?_, ?_⟩
  · intro r q h
    simp only [CalculateStorageSize, h]
  · intro r q h1 h2
    simp only [CalculateStorageSize, h1, h2]
  · intro r h1 h2
    simp only [CalculateStorageSize, h1, h2]
  · intro hen
    refine ⟨?_, ?_, ?_⟩
    · obtain ⟨vs, ics, cs, err, heq, hvs, -, -, -, -⟩ :=
        addCoPilotToPod_enabled_cases lib cfg pod iFace md ip op pilot hen
      rw [heq]
      simp only [List.drop_left]
      intro v hv
      rcases hvs v hv with rfl | rfl | rfl
      · exact Or.inl rfl
      · exact Or.inr (Or.inl rfl)
      · exact Or.inr (Or.inr rfl)
    · intro hi
      exact addCoPilotToPod_input_volume lib cfg pod iFace md ip op pilot hen hi
    · obtain ⟨vs, ics, cs, err, heq, -, -, -, hok, -⟩ :=
        addCoPilotToPod_enabled_cases lib cfg pod iFace md ip op pilot hen
      rw [heq]
      simp only [List.drop_left]
      intro herr ho
      obtain ⟨hvs2, -, -⟩ := hok herr
      subst hvs2
      have hmem : DataVolume cfg.OutputVolumeName
          (CalculateStorageSize md.OverridesResources) ∈
          (if iFace.Inputs.isSome || iFace.Outputs.isSome then [cfgVolume] else []) ++
          (if iFace.Inputs.isSome then
            [DataVolume cfg.InputVolumeName (CalculateStorageSize md.OverridesResources)]
           else []) ++
          (if iFace.Outputs.isSome then
            [DataVolume cfg.OutputVolumeName (CalculateStorageSize md.OverridesResources)]
           else []) := by
        simp [ho]
      exact hmem

/-- C11, at sample metadata with a storage limit of 100 and a storage request of 50: the size
is the limit, and the input volume with that size limit is appended. -/
theorem calculateStorageSize_fallthrough_witness :
    CalculateStorageSize sampleStorageMetadata.OverridesResources = some 100 ∧
    ({ Name := "flyte-inputs"
       VolumeSource := { EmptyDir := some { Medium := "", SizeLimit := some 100 } } } :
      Volume Nat) ∈
      (AddCoPilotToPod sampleLibrary sampleConfig samplePod (some sampleInterface)
        sampleStorageMetadata sampleInputPaths sampleOutputPaths
        (some samplePilot)).1.Volumes.drop samplePod.Volumes.length :=
  ⟨(calculateStorageSize_fallthrough sampleLibrary sampleConfig samplePod sampleInterface
      sampleStorageMetadata sampleInputPaths sampleOutputPaths samplePilot).2.1
      { Limits := [("cpu", 1024), ("storage", 100)], Requests := [("storage", 50)] } 100 rfl,
    ((calculateStorageSize_fallthrough sampleLibrary sampleConfig samplePod sampleInterface
      sampleStorageMetadata sampleInputPaths sampleOutputPaths samplePilot).2.2.2.2 rfl).2.1
        rfl⟩

/-- C12, as stated, fails: in the sample call, which succeeds and appends the downloader and
the sidecar, it is not so that every appended container has a mount of `data-config-volume` at
`/etc/flyte/config-data` that is marked read-only. -/
theorem config_mount_read_only_counterexample :
    (AddCoPilotToPod sampleLibrary sampleConfig samplePod (some sampleInterface) sampleMetadata
      sampleInputPaths sampleOutputPaths (some samplePilot)).2 = none ∧
    ¬ (∀ c ∈
        (AddCoPilotToPod sampleLibrary sampleConfig samplePod (some sampleInterface)
          sampleMetadata sampleInputPaths sampleOutputPaths
          (some samplePilot)).1.InitContainers.drop samplePod.InitContainers.length ++
        (AddCoPilotToPod sampleLibrary sampleConfig samplePod (some sampleInterface)
          sampleMetadata sampleInputPaths sampleOutputPaths
          (some samplePilot)).1.Containers.drop samplePod.Containers.length,
      ∃ m ∈ c.VolumeMounts, m.Name = "data-config-volume" ∧
        m.MountPath = "/etc/flyte/config-data" ∧ m.ReadOnly = true) := by
  decide

/-- C12, amended: after a call of `AddCoPilotToPod` without error, with an enabled config,
every container it appended (the init container and the sidecar) has a mount of
`data-config-volume` at `/etc/flyte/config-data`, whose read-only flag is not set; a declared
side has its one appended container; and when a side is declared the appended volumes hold the
volume of that name backed by the config map `flyte-data-config`. -/
theorem config_mount_of_staging_containers {Q VM F : Type} (lib : Library Q VM F)
    (cfg : FlyteCoPilotConfig) (pod : PodSpec Q) (iFace : TypedInterface VM)
    (md : TaskExecutionMetadata Q) (ip : InputFilePaths) (op : OutputFilePaths)
    (pilot : DataLoadingConfig F) (hen : pilot.Enabled = true)
    (hok : (AddCoPilotToPod lib cfg pod (some iFace) md ip op (some pilot)).2 = none) :
    (∀ c ∈
        (AddCoPilotToPod lib cfg pod (some iFace) md ip op (some pilot)).1.InitContainers.drop
          pod.InitContainers.length ++
        (AddCoPilotToPod lib cfg pod (some iFace) md ip op (some pilot)).1.Containers.drop
          pod.Containers.length,
      ∃ m ∈ c.VolumeMounts, m.Name = "data-config-volume" ∧
        m.MountPath = "/etc/flyte/config-data" ∧ m.ReadOnly = false) ∧
    ((AddCoPilotToPod lib cfg pod (some iFace) md ip op (some pilot)).1.InitContainers.drop
      pod.InitContainers.length).length = (if iFace.Inputs.isSome then 1 else 0) ∧
    ((AddCoPilotToPod lib cfg pod (some iFace) md ip op (some pilot)).1.Containers.drop
      pod.Containers.length).length = (if iFace.Outputs.isSome then 1 else 0) ∧
    (iFace.Inputs.isSome ∨ iFace.Outputs.isSome →
      ({ Name := "data-config-volume"
         VolumeSource := { ConfigMap := some { Name := "flyte-data-config" } } } : Volume Q) ∈
        (AddCoPilotToPod lib cfg pod (some iFace) md ip op (some pilot)).1.Volumes.drop
          pod.Volumes.length) := by
  obtain ⟨vs, ics, cs, err, heq, -, hics, hcs, hsucc, -⟩ :=
    addCoPilotToPod_enabled_cases lib cfg pod iFace md ip op pilot hen
  rw [heq] at hok ⊢
  simp only [List.drop_left]
  obtain ⟨hvs, hli, hlc⟩ := hsucc hok
  refine ⟨?_, hli, hlc, ?_⟩
  · intro c hc
    refine ⟨cfgVMount, ?_, rfl, rfl, rfl⟩
    rcases List.mem_append.mp hc with h | h
    · rw [(hics c h).2.1]
      simp
    · rw [(hcs c h).2.1]
      simp
  · intro h
    subst hvs
    have h2 : (iFace.Inputs.isSome || iFace.Outputs.isSome) = true := by
      simpa using h
    simp [h2, cfgVolume, flyteDataConfigVolume, flyteDataConfigMap]

/-- C12, amended, at the sample call. -/
theorem config_mount_of_staging_containers_witness :
    (AddCoPilotToPod sampleLibrary sampleConfig samplePod (some sampleInterface) sampleMetadata
      sampleInputPaths sampleOutputPaths (some samplePilot)).2 = none ∧
    ((AddCoPilotToPod sampleLibrary sampleConfig samplePod (some sampleInterface) sampleMetadata
      sampleInputPaths sampleOutputPaths (some samplePilot)).1.InitContainers.drop
        samplePod.InitContainers.length).length = 1 :=
  ⟨rfl, (config_mount_of_staging_containers sampleLibrary sampleConfig samplePod
    sampleInterface sampleMetadata sampleInputPaths sampleOutputPaths samplePilot rfl rfl).2.1⟩

/-- C13, as stated, fails: with the name prefix `flyte-copilot-` of the sample config the
appended init container is not named `downloader` and the appended container is not named
`sidecar`. -/
theorem container_names_counterexample :
    (AddCoPilotToPod sampleLibrary sampleConfig samplePod (some sampleInterface) sampleMetadata
      sampleInputPaths sampleOutputPaths (some samplePilot)).2 = none ∧
    ((AddCoPilotToPod sampleLibrary sampleConfig samplePod (some sampleInterface) sampleMetadata
      sampleInputPaths sampleOutputPaths (some samplePilot)).1.InitContainers.drop
        samplePod.InitContainers.length).map (fun c => c.Name) =
      ["flyte-copilot-downloader"] ∧
    ((AddCoPilotToPod sampleLibrary sampleConfig samplePod (some sampleInterface) sampleMetadata
      sampleInputPaths sampleOutputPaths (some samplePilot)).1.Containers.drop
        samplePod.Containers.length).map (fun c => c.Name) =
      ["flyte-copilot-sidecar"] ∧
    ¬ (∀ c ∈ (AddCoPilotToPod sampleLibrary sampleConfig samplePod (some sampleInterface)
        sampleMetadata sampleInputPaths sampleOutputPaths
        (some samplePilot)).1.InitContainers.drop samplePod.InitContainers.length,
      c.Name = "downloader") := by
  decide

/-- C13, amended: after a call of `AddCoPilotToPod` without error, with an enabled config, the
appended init container is named by the name prefix of the fragment config followed by
`downloader`, and the appended container by the name prefix followed by `sidecar`; a declared
side has its one appended container; with an empty name prefix the names are `downloader` and
`sidecar`. -/
theorem staging_container_names {Q VM F : Type} (lib : Library Q VM F)
    (cfg : FlyteCoPilotConfig) (pod : PodSpec Q) (iFace : TypedInterface VM)
    (md : TaskExecutionMetadata Q) (ip : InputFilePaths) (op : OutputFilePaths)
    (pilot : DataLoadingConfig F) (hen : pilot.Enabled = true)
    (hok : (AddCoPilotToPod lib cfg pod (some iFace) md ip op (some pilot)).2 = none) :
    (∀ c ∈ (AddCoPilotToPod lib cfg pod (some iFace) md ip op
        (some pilot)).1.InitContainers.drop pod.InitContainers.length,
      c.Name = cfg.NamePrefix ++ "downloader" ∧ (cfg.NamePrefix = "" → c.Name = "downloader")) ∧
    (∀ c ∈ (AddCoPilotToPod lib cfg pod (some iFace) md ip op
        (some pilot)).1.Containers.drop pod.Containers.length,
      c.Name = cfg.NamePrefix ++ "sidecar" ∧ (cfg.NamePrefix = "" → c.Name = "sidecar")) ∧
    ((AddCoPilotToPod lib cfg pod (some iFace) md ip op (some pilot)).1.InitContainers.drop
      pod.InitContainers.length).length = (if iFace.Inputs.isSome then 1 else 0) ∧
    ((AddCoPilotToPod lib cfg pod (some iFace) md ip op (some pilot)).1.Containers.drop
      pod.Containers.length).length = (if iFace.Outputs.isSome then 1 else 0) := by
  obtain ⟨vs, ics, cs, err, heq, -, hics, hcs, hsucc, -⟩ :=
    addCoPilotToPod_enabled_cases lib cfg pod iFace md ip op pilot hen
  rw [heq] at hok ⊢
  simp only [List.drop_left]
  obtain ⟨-, hli, hlc⟩ := hsucc hok
  refine ⟨?_, ?_, hli, hlc⟩
  · intro c hc
    have hn : c.Name = cfg.NamePrefix ++ "downloader" := (hics c hc).1
    refine ⟨hn, fun hp => ?_⟩
    rw [hn, hp]
    rfl
  · intro c hc
    have hn : c.Name = cfg.NamePrefix ++ "sidecar" := (hcs c hc).1
    refine ⟨hn, fun hp => ?_⟩
    rw [hn, hp]
    rfl

/-- C13, amended, at the sample call. -/
theorem staging_container_names_witness :
    (AddCoPilotToPod sampleLibrary sampleConfig samplePod (some sampleInterface) sampleMetadata
      sampleInputPaths sampleOutputPaths (some samplePilot)).2 = none ∧
    ((AddCoPilotToPod sampleLibrary sampleConfig samplePod (some sampleInterface) sampleMetadata
      sampleInputPaths sampleOutputPaths (some samplePilot)).1.Containers.drop
        samplePod.Containers.length).length = 1 :=
  ⟨rfl, (staging_container_names sampleLibrary sampleConfig samplePod
    sampleInterface sampleMetadata sampleInputPaths sampleOutputPaths samplePilot
    rfl rfl).2.2.2⟩

/-- The effective path of the source and the one worded by the specification agree. -/
theorem effectivePath_eq (defaultPath override : String) :
    effectivePath defaultPath override = if override = "" then defaultPath else override := by
  unfold effectivePath
  by_cases h : override = "" <;> simp [h]

/-- The mounts that `AddCoPilotToContainer` leaves on the container, with an enabled config. -/
theorem addCoPilotToContainer_mounts {Q VM F : Type} (cfg : FlyteCoPilotConfig)
    (c : Container Q) (iFace : Option (TypedInterface VM)) (pilot : DataLoadingConfig F)
    (hen : pilot.Enabled = true) :
    (AddCoPilotToContainer cfg c iFace (some pilot)).1.VolumeMounts =
      c.VolumeMounts ++ specDataMounts cfg iFace pilot := by
  cases iFace with
  | none => simp [AddCoPilotToContainer, specDataMounts, hen]
  | some i =>
    cases hi : i.Inputs <;> cases ho : i.Outputs <;>
      simp [AddCoPilotToContainer, specDataMounts, hen, hi, ho, effectivePath_eq,
        DataLoadingConfig.GetInputPath, DataLoadingConfig.GetOutputPath]

/-- C14: with an enabled config the mounts that `AddCoPilotToContainer` appends to the
container are the data mounts worded by the specification (the input mount when inputs are
declared, then the output mount when outputs are declared; none for a nil interface or when no
side is declared); and after a call of `AddCoPilotToPod` without error the appended init
container has the input mount of that list followed by the config mount, the appended
container the output mount of that list followed by the config mount, so that the data mounts
of the downloader followed by those of the sidecar are the mounts appended to the container. -/
theorem addCoPilotToContainer_same_mounts {Q VM F : Type} (lib : Library Q VM F)
    (cfg : FlyteCoPilotConfig) (c : Container Q) (pod : PodSpec Q)
    (iFace : Option (TypedInterface VM)) (md : TaskExecutionMetadata Q) (ip : InputFilePaths)
    (op : OutputFilePaths) (pilot : DataLoadingConfig F) (hen : pilot.Enabled = true) :
    (AddCoPilotToContainer cfg c iFace (some pilot)).1.VolumeMounts =
      c.VolumeMounts ++ specDataMounts cfg iFace pilot ∧
    (iFace = none ∨ (∃ i, iFace = some i ∧ i.Inputs = none ∧ i.Outputs = none) →
      (AddCoPilotToContainer cfg c iFace (some pilot)).1.VolumeMounts = c.VolumeMounts) ∧
    (∀ i, iFace = some i →
      specDataMounts cfg iFace pilot =
        specDataMounts cfg (some { i with Outputs := none }) pilot ++
        specDataMounts cfg (some { i with Inputs := none }) pilot ∧
      ((AddCoPilotToPod lib cfg pod iFace md ip op (some pilot)).2 = none →
        (∀ d ∈ (AddCoPilotToPod lib cfg pod iFace md ip op (some pilot)).1.InitContainers.drop
            pod.InitContainers.length,
          d.VolumeMounts =
            specDataMounts cfg (some { i with Outputs := none }) pilot ++ [cfgVMount]) ∧
        (∀ d ∈ (AddCoPilotToPod lib cfg pod iFace md ip op (some pilot)).1.Containers.drop
            pod.Containers.length,
          d.VolumeMounts =
            specDataMounts cfg (some { i with Inputs := none }) pilot ++ [cfgVMount]) ∧
        ((AddCoPilotToPod lib cfg pod iFace md ip op (some pilot)).1.InitContainers.drop
          pod.InitContainers.length).length = (specDataMounts cfg
            (some { i with Outputs := none }) pilot).length ∧
        ((AddCoPilotToPod lib cfg pod iFace md ip op (some pilot)).1.Containers.drop
          pod.Containers.length).length = (specDataMounts cfg
            (some { i with Inputs := none }) pilot).length)) := by
  refine ⟨addCoPilotToContainer_mounts cfg c iFace pilot hen, ?_, ?_⟩
  · intro h
    rw [addCoPilotToContainer_mounts cfg c iFace pilot hen]
    rcases h with rfl | ⟨i, rfl, hi, ho⟩
    · simp [specDataMounts]
    · simp [specDataMounts, hi, ho]
  · rintro i rfl
    refine ⟨?_, ?_⟩
    · cases hi : i.Inputs <;> cases ho : i.Outputs <;> simp [specDataMounts, hi, ho]
    · intro hok
      obtain ⟨vs, ics, cs, err, heq, -, hics, hcs, hsucc, -⟩ :=
        addCoPilotToPod_enabled_cases lib cfg pod i md ip op pilot hen
      rw [heq] at hok ⊢
      simp only [List.drop_left]
      obtain ⟨-, hli, hlc⟩ := hsucc hok
      refine ⟨?_, ?_, ?_, ?_⟩
      · intro d hd
        have hne : ics ≠ [] := List.ne_nil_of_mem hd
        have hi : i.Inputs.isSome = true := by
          by_contra hcon
          simp [hcon] at hli
          exact hne hli
        rw [(hics d hd).2.1]
        simp [specDataMounts, hi, effectivePath_eq, DataLoadingConfig.GetInputPath]
      · intro d hd
        have hne : cs ≠ [] := List.ne_nil_of_mem hd
        have ho : i.Outputs.isSome = true := by
          by_contra hcon
          simp [hcon] at hlc
          exact hne hlc
        rw [(hcs d hd).2.1]
        simp [specDataMounts, ho, effectivePath_eq, DataLoadingConfig.GetOutputPath]
      · rw [hli]
        cases hi : i.Inputs <;> simp [specDataMounts]
      · rw [hlc]
        cases ho : i.Outputs <;> simp [specDataMounts]

/-- C14, at the sample interface and a pilot with an input path override. -/
theorem addCoPilotToContainer_same_mounts_witness :
    (AddCoPilotToContainer sampleConfig ({ Name := "user" } : Container Nat)
      (some sampleInterface) (some sampleOverridePilot)).1.VolumeMounts =
      [{ Name := "flyte-inputs", MountPath := "/data/in" },
       { Name := "flyte-outputs", MountPath := "/var/flyte/outputs" }] :=
  (addCoPilotToContainer_same_mounts sampleLibrary sampleConfig { Name := "user" } samplePod
    (some sampleInterface) sampleMetadata sampleInputPaths sampleOutputPaths
    sampleOverridePilot rfl).1.trans (by decide)

/-- C15, as stated, fails: the two init containers of two applications need not be identical.
In the sample call with two input variables, where the second application serializes the
variable map in the opposite order, the second application succeeds and leaves two appended
init containers that differ (in their last argument, the text of the serialized schema). -/
theorem addCoPilotToPod_twice_counterexample :
    (AddCoPilotToPod sampleLibraryReordered sampleConfig
      (AddCoPilotToPod sampleLibrary sampleConfig samplePod (some sampleTwoInputsInterface)
        sampleMetadata sampleInputPaths sampleOutputPaths (some samplePilot)).1
      (some sampleTwoInputsInterface) sampleMetadata sampleInputPaths sampleOutputPaths
      (some samplePilot)).2 = none ∧
    ((AddCoPilotToPod sampleLibraryReordered sampleConfig
      (AddCoPilotToPod sampleLibrary sampleConfig samplePod (some sampleTwoInputsInterface)
        sampleMetadata sampleInputPaths sampleOutputPaths (some samplePilot)).1
      (some sampleTwoInputsInterface) sampleMetadata sampleInputPaths sampleOutputPaths
      (some samplePilot)).1.InitContainers.drop samplePod.InitContainers.length).map
        (fun c => c.Args.getLast?) = [some "bc", some "cb"] ∧
    ((AddCoPilotToPod sampleLibraryReordered sampleConfig
      (AddCoPilotToPod sampleLibrary sampleConfig samplePod (some sampleTwoInputsInterface)
        sampleMetadata sampleInputPaths sampleOutputPaths (some samplePilot)).1
      (some sampleTwoInputsInterface) sampleMetadata sampleInputPaths sampleOutputPaths
      (some samplePilot)).1.InitContainers.drop samplePod.InitContainers.length)[0]? ≠
    ((AddCoPilotToPod sampleLibraryReordered sampleConfig
      (AddCoPilotToPod sampleLibrary sampleConfig samplePod (some sampleTwoInputsInterface)
        sampleMetadata sampleInputPaths sampleOutputPaths (some samplePilot)).1
      (some sampleTwoInputsInterface) sampleMetadata sampleInputPaths sampleOutputPaths
      (some samplePilot)).1.InitContainers.drop samplePod.InitContainers.length)[1]? := by
  decide

/-- C15, amended: `AddCoPilotToPod` is not idempotent. With an enabled config, quantities that
parse and an interface declaring inputs and outputs that serialize in both applications, a
second application with the same arguments to the pod of the first one succeeds and leaves two
appended init containers and two appended containers, the second of each being the first
except for its last argument (the text of the schema as serialized in that application; the
two are identical when the two serializations agree), and six appended volumes (the config,
input and output volumes twice); its pod differs from the pod of the first application. -/
theorem addCoPilotToPod_twice_duplicates {Q VM F : Type} (lib : Library Q VM F)
    (marshal2 : VM → Except String (List Nat))
    (cfg : FlyteCoPilotConfig) (pod : PodSpec Q) (iFace : TypedInterface VM)
    (md : TaskExecutionMetadata Q) (ip : InputFilePaths) (op : OutputFilePaths)
    (pilot : DataLoadingConfig F) (inputs outputs : VM) (cpu mem : Q)
    (bi bo bi2 bo2 : List Nat)
    (hen : pilot.Enabled = true)
    (hin : iFace.Inputs = some inputs) (hout : iFace.Outputs = some outputs)
    (hcpu : lib.ParseQuantity cfg.CPU = Except.ok cpu)
    (hmem : lib.ParseQuantity cfg.Memory = Except.ok mem)
    (hbi : lib.Marshal inputs = Except.ok bi) (hbo : lib.Marshal outputs = Except.ok bo)
    (hbi2 : marshal2 inputs = Except.ok bi2) (hbo2 : marshal2 outputs = Except.ok bo2) :
    ∃ d1 d2 s1 s2 : Container Q,
      (AddCoPilotToPod lib cfg pod (some iFace) md ip op (some pilot)).2 = none ∧
      (AddCoPilotToPod lib cfg pod (some iFace) md ip op (some pilot)).1.InitContainers =
        pod.InitContainers ++ [d1] ∧
      (AddCoPilotToPod lib cfg pod (some iFace) md ip op (some pilot)).1.Containers =
        pod.Containers ++ [s1] ∧
      (AddCoPilotToPod { lib with Marshal := marshal2 } cfg
        (AddCoPilotToPod lib cfg pod (some iFace) md ip op (some pilot)).1
        (some iFace) md ip op (some pilot)).2 = none ∧
      (AddCoPilotToPod { lib with Marshal := marshal2 } cfg
        (AddCoPilotToPod lib cfg pod (some iFace) md ip op (some pilot)).1
        (some iFace) md ip op (some pilot)).1.InitContainers =
        pod.InitContainers ++ [d1, d2] ∧
      (AddCoPilotToPod { lib with Marshal := marshal2 } cfg
        (AddCoPilotToPod lib cfg pod (some iFace) md ip op (some pilot)).1
        (some iFace) md ip op (some pilot)).1.Containers =
        pod.Containers ++ [s1, s2] ∧
      (AddCoPilotToPod { lib with Marshal := marshal2 } cfg
        (AddCoPilotToPod lib cfg pod (some iFace) md ip op (some pilot)).1
        (some iFace) md ip op (some pilot)).1.Volumes =
        pod.Volumes ++
          [cfgVolume,
           DataVolume cfg.InputVolumeName (CalculateStorageSize md.OverridesResources),
           DataVolume cfg.OutputVolumeName (CalculateStorageSize md.OverridesResources),
           cfgVolume,
           DataVolume cfg.InputVolumeName (CalculateStorageSize md.OverridesResources),
           DataVolume cfg.OutputVolumeName (CalculateStorageSize md.OverridesResources)] ∧
      d1.Args.length = 11 ∧ d1.Args.getLast? = some (lib.EncodeToString bi) ∧
      d2 = { d1 with Args := d1.Args.dropLast ++ [lib.EncodeToString bi2] } ∧
      s1.Args.length = 11 ∧ s1.Args.getLast? = some (lib.EncodeToString bo) ∧
      s2 = { s1 with Args := s1.Args.dropLast ++ [lib.EncodeToString bo2] } ∧
      (bi2 = bi → d2 = d1) ∧ (bo2 = bo → s2 = s1) ∧
      (AddCoPilotToPod { lib with Marshal := marshal2 } cfg
        (AddCoPilotToPod lib cfg pod (some iFace) md ip op (some pilot)).1
        (some iFace) md ip op (some pilot)).1 ≠
        (AddCoPilotToPod lib cfg pod (some iFace) md ip op (some pilot)).1 := by
  have hcpu2 : ({ lib with Marshal := marshal2 } : Library Q VM F).ParseQuantity cfg.CPU =
      Except.ok cpu := hcpu
  have hmem2 : ({ lib with Marshal := marshal2 } : Library Q VM F).ParseQuantity cfg.Memory =
      Except.ok mem := hmem
  have hbi2b : ({ lib with Marshal := marshal2 } : Library Q VM F).Marshal inputs =
      Except.ok bi2 := hbi2
  have hbo2b : ({ lib with Marshal := marshal2 } : Library Q VM F).Marshal outputs =
      Except.ok bo2 := hbo2
  have h1 := addCoPilotToPod_both_eq lib cfg pod iFace md ip op pilot inputs outputs cpu mem
    bi bo hen hin hout hcpu hmem hbi hbo
  have h2 := addCoPilotToPod_both_eq { lib with Marshal := marshal2 } cfg
    (AddCoPilotToPod lib cfg pod (some iFace) md ip op (some pilot)).1 iFace md ip op pilot
    inputs outputs cpu mem bi2 bo2 hen hin hout hcpu2 hmem2 hbi2b hbo2b
  have hd1 := flyteCoPilotContainer_ok lib flyteInitContainerName cfg
    ["download", "--from-remote", ip.InputPath, "--to-output-prefix", op.OutputPrefixPath,
      "--to-local-dir", effectivePath cfg.DefaultInputDataPath pilot.GetInputPath, "--format",
      ToLower (lib.FormatString pilot.Format), "--input-interface", lib.EncodeToString bi]
    [{ Name := cfg.InputVolumeName
       MountPath := effectivePath cfg.DefaultInputDataPath pilot.GetInputPath }, cfgVMount]
    cpu mem hcpu hmem
  have hd2 := flyteCoPilotContainer_ok { lib with Marshal := marshal2 } flyteInitContainerName
    cfg
    ["download", "--from-remote", ip.InputPath, "--to-output-prefix", op.OutputPrefixPath,
      "--to-local-dir", effectivePath cfg.DefaultInputDataPath pilot.GetInputPath, "--format",
      ToLower (lib.FormatString pilot.Format), "--input-interface", lib.EncodeToString bi2]
    [{ Name := cfg.InputVolumeName
       MountPath := effectivePath cfg.DefaultInputDataPath pilot.GetInputPath }, cfgVMount]
    cpu mem hcpu2 hmem2
  have hs1 := flyteCoPilotContainer_ok lib flyteSidecarContainerName cfg
    ["upload", "--start-timeout", lib.DurationString cfg.StartTimeout, "--to-raw-output",
      op.RawOutputPrefix, "--to-output-prefix", op.OutputPrefixPath, "--from-local-dir",
      effectivePath cfg.DefaultOutputPath pilot.GetOutputPath, "--output-interface",
      lib.EncodeToString bo]
    [{ Name := cfg.OutputVolumeName
       MountPath := effectivePath cfg.DefaultOutputPath pilot.GetOutputPath }, cfgVMount]
    cpu mem hcpu hmem
  have hs2 := flyteCoPilotContainer_ok { lib with Marshal := marshal2 }
    flyteSidecarContainerName cfg
    ["upload", "--start-timeout", lib.DurationString cfg.StartTimeout, "--to-raw-output",
      op.RawOutputPrefix, "--to-output-prefix", op.OutputPrefixPath, "--from-local-dir",
      effectivePath cfg.DefaultOutputPath pilot.GetOutputPath, "--output-interface",
      lib.EncodeToString bo2]
    [{ Name := cfg.OutputVolumeName
       MountPath := effectivePath cfg.DefaultOutputPath pilot.GetOutputPath }, cfgVMount]
    cpu mem hcpu2 hmem2
  rw [downloadCommandArgs_eq lib _ _ _ _ inputs bi hbi,
    sidecarCommandArgs_eq lib _ _ _ _ outputs bo hbo] at h1
  rw [downloadCommandArgs_eq _ _ _ _ _ inputs bi2 hbi2b,
    sidecarCommandArgs_eq _ _ _ _ _ outputs bo2 hbo2b] at h2
  refine ⟨(FlyteCoPilotContainer lib flyteInitContainerName cfg
      ["download", "--from-remote", ip.InputPath, "--to-output-prefix", op.OutputPrefixPath,
        "--to-local-dir", effectivePath cfg.DefaultInputDataPath pilot.GetInputPath, "--format",
        ToLower (lib.FormatString pilot.Format), "--input-interface", lib.EncodeToString bi]
      [{ Name := cfg.InputVolumeName
         MountPath := effectivePath cfg.DefaultInputDataPath pilot.GetInputPath },
       cfgVMount]).1,
    (FlyteCoPilotContainer { lib with Marshal := marshal2 } flyteInitContainerName cfg
      ["download", "--from-remote", ip.InputPath, "--to-output-prefix", op.OutputPrefixPath,
        "--to-local-dir", effectivePath cfg.DefaultInputDataPath pilot.GetInputPath, "--format",
        ToLower (lib.FormatString pilot.Format), "--input-interface", lib.EncodeToString bi2]
      [{ Name := cfg.InputVolumeName
         MountPath := effectivePath cfg.DefaultInputDataPath pilot.GetInputPath },
       cfgVMount]).1,
    (FlyteCoPilotContainer lib flyteSidecarContainerName cfg
      ["upload", "--start-timeout", lib.DurationString cfg.StartTimeout, "--to-raw-output",
        op.RawOutputPrefix, "--to-output-prefix", op.OutputPrefixPath, "--from-local-dir",
        effectivePath cfg.DefaultOutputPath pilot.GetOutputPath, "--output-interface",
        lib.EncodeToString bo]
      [{ Name := cfg.OutputVolumeName
         MountPath := effectivePath cfg.DefaultOutputPath pilot.GetOutputPath },
       cfgVMount]).1,
    (FlyteCoPilotContainer { lib with Marshal := marshal2 } flyteSidecarContainerName cfg
      ["upload", "--start-timeout", lib.DurationString cfg.StartTimeout, "--to-raw-output",
        op.RawOutputPrefix, "--to-output-prefix", op.OutputPrefixPath, "--from-local-dir",
        effectivePath cfg.DefaultOutputPath pilot.GetOutputPath, "--output-interface",
        lib.EncodeToString bo2]
      [{ Name := cfg.OutputVolumeName
         MountPath := effectivePath cfg.DefaultOutputPath pilot.GetOutputPath },
       cfgVMount]).1,
    by rw [h1], by rw [h1], by rw [h1], by rw [h2], ?_, ?_, ?_,
    ?_, ?_, ?_, ?_, ?_, ?_, ?_, ?_, ?_⟩
  · rw [h2, h1]
    simp only [List.append_assoc, List.singleton_append]
  · rw [h2, h1]
    simp only [List.append_assoc, List.singleton_append]
  · rw [h2, h1]
    simp
  · rw [hd1]
    rfl
  · rw [hd1]
    rfl
  · rw [hd1, hd2]
    rfl
  · rw [hs1]
    rfl
  · rw [hs1]
    rfl
  · rw [hs1, hs2]
    rfl
  · rintro rfl
    rw [hd1, hd2]
  · rintro rfl
    rw [hs1, hs2]
  · intro hcon
    have hlen := congrArg (fun p => p.InitContainers.length) hcon
    rw [h2, h1] at hlen
    simp at hlen

/-- C15, amended, at the sample call with the reordered serialization in the second
application: six volumes after the second application. -/
theorem addCoPilotToPod_twice_duplicates_witness :
    (AddCoPilotToPod { sampleLibrary with Marshal := sampleLibraryReordered.Marshal }
      sampleConfig
      (AddCoPilotToPod sampleLibrary sampleConfig samplePod (some sampleTwoInputsInterface)
        sampleMetadata sampleInputPaths sampleOutputPaths (some samplePilot)).1
      (some sampleTwoInputsInterface) sampleMetadata sampleInputPaths sampleOutputPaths
      (some samplePilot)).1.Volumes.length = 6 :=
  (addCoPilotToPod_twice_duplicates sampleLibrary sampleLibraryReordered.Marshal sampleConfig
    samplePod sampleTwoInputsInterface sampleMetadata sampleInputPaths sampleOutputPaths
    samplePilot ["x", "yy"] ["o"] 500 128 [1, 2] [1] [2, 1] [1]
    rfl rfl rfl rfl rfl rfl rfl rfl rfl).elim
    (fun _ h => h.elim (fun _ h2 => h2.elim (fun _ h3 => h3.elim (fun _ h4 => by
      rw [h4.2.2.2.2.2.2.1]; rfl))))

/-- C16: with an enabled config `AddCoPilotToContainer` returns no error, for every
interface (also nil), and the added capabilities of the security context of the container are
afterwards the previous ones (none when there was no security context or no capabilities)
followed by `SYS_PTRACE`. -/
theorem addCoPilotToContainer_ptrace {Q VM F : Type} (cfg : FlyteCoPilotConfig)
    (c : Container Q) (iFace : Option (TypedInterface VM)) (pilot : DataLoadingConfig F)
    (hen : pilot.Enabled = true) :
    (AddCoPilotToContainer cfg c iFace (some pilot)).2 = none ∧
    ∃ sc caps,
      (AddCoPilotToContainer cfg c iFace (some pilot)).1.SecurityContext = some sc ∧
      sc.Capabilities = some caps ∧
      caps.Add =
        (match c.SecurityContext with
          | none => []
          | some sc0 =>
            match sc0.Capabilities with
            | none => []
            | some caps0 => caps0.Add) ++ ["SYS_PTRACE"] := by
  cases iFace with
  | none =>
    rcases hs : c.SecurityContext with _ | sc0
    · simp [AddCoPilotToContainer, hen, hs, pTraceCapability]
    · rcases hk : sc0.Capabilities with _ | caps0 <;>
        simp [AddCoPilotToContainer, hen, hs, hk, pTraceCapability]
  | some i =>
    rcases hs : c.SecurityContext with _ | sc0
    · cases hi : i.Inputs <;> cases ho : i.Outputs <;>
        simp [AddCoPilotToContainer, hen, hs, hi, ho, pTraceCapability]
    · rcases hk : sc0.Capabilities with _ | caps0 <;> cases hi : i.Inputs <;>
        cases ho : i.Outputs <;>
        simp [AddCoPilotToContainer, hen, hs, hk, hi, ho, pTraceCapability]

/-- C16, at a container that already has the capability `NET_ADMIN`. -/
theorem addCoPilotToContainer_ptrace_witness :
    ∃ sc caps,
      (AddCoPilotToContainer sampleConfig
        ({ Name := "user"
           SecurityContext := some { Capabilities := some { Add := ["NET_ADMIN"] } } } :
          Container Nat)
        (none : Option (TypedInterface (List String))) (some samplePilot)).1.SecurityContext =
        some sc ∧
      sc.Capabilities = some caps ∧ caps.Add = ["NET_ADMIN"] ++ ["SYS_PTRACE"] :=
  (addCoPilotToContainer_ptrace sampleConfig
    ({ Name := "user"
       SecurityContext := some { Capabilities := some { Add := ["NET_ADMIN"] } } } :
      Container Nat)
    (none : Option (TypedInterface (List String))) samplePilot rfl).2

/-- The pod of `AddCoPilotToPod` is, in every case, the pod it was given with volumes, init
containers and containers appended and the flag possibly set. -/
theorem addCoPilotToPod_frame {Q VM F : Type} (lib : Library Q VM F)
    (cfg : FlyteCoPilotConfig) (pod : PodSpec Q) (iFace : Option (TypedInterface VM))
    (md : TaskExecutionMetadata Q) (ip : InputFilePaths) (op : OutputFilePaths)
    (pilot : Option (DataLoadingConfig F)) :
    ∃ vs ics cs spn,
      (AddCoPilotToPod lib cfg pod iFace md ip op pilot).1 =
        { pod with
            ShareProcessNamespace := spn
            Volumes := pod.Volumes ++ vs
            InitContainers := pod.InitContainers ++ ics
            Containers := pod.Containers ++ cs } := by
  cases pilot with
  | none => exact ⟨[], [], [], pod.ShareProcessNamespace, by simp [AddCoPilotToPod]⟩
  | some p =>
    cases hen : p.Enabled with
    | false => exact ⟨[], [], [], pod.ShareProcessNamespace, by simp [AddCoPilotToPod, hen]⟩
    | true =>
      cases iFace with
      | none => exact ⟨[], [], [], some true, by simp [AddCoPilotToPod, hen]⟩
      | some i =>
        obtain ⟨vs, ics, cs, err, heq, -⟩ :=
          addCoPilotToPod_enabled_cases lib cfg pod i md ip op p hen
        exact ⟨vs, ics, cs, some true, by rw [heq]⟩

/-- C19: `AddCoPilotToPod` only appends. For every input and every outcome the init
containers, the containers and the volumes of the pod it was given are a prefix of those of the
pod afterwards, and the pod afterwards is the pod it was given except for these three lists and
`ShareProcessNamespace`. -/
theorem addCoPilotToPod_only_appends {Q VM F : Type} (lib : Library Q VM F)
    (cfg : FlyteCoPilotConfig) (pod : PodSpec Q) (iFace : Option (TypedInterface VM))
    (md : TaskExecutionMetadata Q) (ip : InputFilePaths) (op : OutputFilePaths)
    (pilot : Option (DataLoadingConfig F)) :
    List.IsPrefix pod.InitContainers
      (AddCoPilotToPod lib cfg pod iFace md ip op pilot).1.InitContainers ∧
    List.IsPrefix pod.Containers
      (AddCoPilotToPod lib cfg pod iFace md ip op pilot).1.Containers ∧
    List.IsPrefix pod.Volumes
      (AddCoPilotToPod lib cfg pod iFace md ip op pilot).1.Volumes ∧
    (AddCoPilotToPod lib cfg pod iFace md ip op pilot).1 =
      { pod with
          ShareProcessNamespace :=
            (AddCoPilotToPod lib cfg pod iFace md ip op pilot).1.ShareProcessNamespace
          Volumes := (AddCoPilotToPod lib cfg pod iFace md ip op pilot).1.Volumes
          InitContainers := (AddCoPilotToPod lib cfg pod iFace md ip op pilot).1.InitContainers
          Containers := (AddCoPilotToPod lib cfg pod iFace md ip op pilot).1.Containers } ∧
    (AddCoPilotToPod lib cfg pod iFace md ip op pilot).1.RestartPolicy = pod.RestartPolicy ∧
    (AddCoPilotToPod lib cfg pod iFace md ip op pilot).1.ActiveDeadlineSeconds =
      pod.ActiveDeadlineSeconds ∧
    (AddCoPilotToPod lib cfg pod iFace md ip op pilot).1.ServiceAccountName =
      pod.ServiceAccountName ∧
    (AddCoPilotToPod lib cfg pod iFace md ip op pilot).1.NodeName = pod.NodeName ∧
    (AddCoPilotToPod lib cfg pod iFace md ip op pilot).1.HostNetwork = pod.HostNetwork := by
  obtain ⟨vs, ics, cs, spn, heq⟩ := addCoPilotToPod_frame lib cfg pod iFace md ip op pilot
  rw [heq]
  exact ⟨⟨ics, rfl⟩, ⟨cs, rfl⟩, ⟨vs, rfl⟩, rfl, rfl, rfl, rfl, rfl, rfl⟩

/-- C20: when the schemas that the interface of the call declares serialize, `AddCoPilotToPod`
returns an error exactly when the config is enabled, the interface is not nil and declares inputs or outputs, and the CPU string
or the memory string does not parse. With a nil interface, or one that declares no side, it
succeeds whatever the two strings are; and when it returns an error, the init containers and
the containers of the pod are those it was given. -/
theorem addCoPilotToPod_error_iff {Q VM F : Type} (lib : Library Q VM F)
    (cfg : FlyteCoPilotConfig) (pod : PodSpec Q) (iFace : Option (TypedInterface VM))
    (md : TaskExecutionMetadata Q) (ip : InputFilePaths) (op : OutputFilePaths)
    (pilot : Option (DataLoadingConfig F))
    (hser : ∀ i v, iFace = some i → (i.Inputs = some v ∨ i.Outputs = some v) →
      ∃ b, lib.Marshal v = Except.ok b) :
    ((AddCoPilotToPod lib cfg pod iFace md ip op pilot).2 ≠ none ↔
      ∃ p i, pilot = some p ∧ p.Enabled = true ∧ iFace = some i ∧
        (i.Inputs.isSome ∨ i.Outputs.isSome) ∧
        ((∃ e, lib.ParseQuantity cfg.CPU = Except.error e) ∨
          (∃ e, lib.ParseQuantity cfg.Memory = Except.error e))) ∧
    (iFace = none ∨ (∃ i, iFace = some i ∧ i.Inputs = none ∧ i.Outputs = none) →
      (AddCoPilotToPod lib cfg pod iFace md ip op pilot).2 = none) ∧
    ((AddCoPilotToPod lib cfg pod iFace md ip op pilot).2 ≠ none →
      (AddCoPilotToPod lib cfg pod iFace md ip op pilot).1.InitContainers =
        pod.InitContainers ∧
      (AddCoPilotToPod lib cfg pod iFace md ip op pilot).1.Containers = pod.Containers) := by
  have key : ((AddCoPilotToPod lib cfg pod iFace md ip op pilot).2 ≠ none ↔
      ∃ p i, pilot = some p ∧ p.Enabled = true ∧ iFace = some i ∧
        (i.Inputs.isSome ∨ i.Outputs.isSome) ∧
        ((∃ e, lib.ParseQuantity cfg.CPU = Except.error e) ∨
          (∃ e, lib.ParseQuantity cfg.Memory = Except.error e))) ∧
      ((AddCoPilotToPod lib cfg pod iFace md ip op pilot).2 ≠ none →
        (AddCoPilotToPod lib cfg pod iFace md ip op pilot).1.InitContainers =
          pod.InitContainers ∧
        (AddCoPilotToPod lib cfg pod iFace md ip op pilot).1.Containers = pod.Containers) := by
    cases pilot with
    | none => simp [AddCoPilotToPod]
    | some p =>
      cases hen : p.Enabled with
      | false => simp [AddCoPilotToPod, hen]
      | true =>
        cases iFace with
        | none => simp [AddCoPilotToPod, hen]
        | some i =>
          obtain ⟨vs, ics, cs, err, heq, -, hics, hcs, hsucc, hfail⟩ :=
            addCoPilotToPod_enabled_cases lib cfg pod i md ip op p hen
          rw [heq]
          have hparse : err ≠ none →
              ((∃ e, lib.ParseQuantity cfg.CPU = Except.error e) ∨
                (∃ e, lib.ParseQuantity cfg.Memory = Except.error e)) := by
            intro herr
            rcases (hfail herr).2.2 with ⟨v, e, hv, he⟩ | h | h
            · obtain ⟨b, hb⟩ := hser i v rfl hv
              rw [hb] at he
              cases he
            · exact Or.inl h
            · exact Or.inr h
          have hnil : ∀ (l : List (Container Q)),
              (∀ c ∈ l, (∃ cpu, lib.ParseQuantity cfg.CPU = Except.ok cpu) ∧
                (∃ mem, lib.ParseQuantity cfg.Memory = Except.ok mem)) →
              ((∃ e, lib.ParseQuantity cfg.CPU = Except.error e) ∨
                (∃ e, lib.ParseQuantity cfg.Memory = Except.error e)) → l = [] := by
            intro l hl hbad
            cases l with
            | nil => rfl
            | cons c rest =>
              obtain ⟨⟨cpu, hcpu⟩, ⟨mem, hmem⟩⟩ := hl c (List.mem_cons_self c rest)
              rcases hbad with ⟨e, he⟩ | ⟨e, he⟩
              · rw [hcpu] at he
                cases he
              · rw [hmem] at he
                cases he
          have hics2 := hnil ics (fun c hc => (hics c hc).2.2)
          have hcs2 := hnil cs (fun c hc => (hcs c hc).2.2)
          refine ⟨⟨?_, ?_⟩, ?_⟩
          · intro herr
            exact ⟨p, i, rfl, hen, rfl, (hfail herr).2.1, hparse herr⟩
          · rintro ⟨p2, i2, hp2, -, hi2, hdecl, hbad⟩ herr
            cases hp2
            cases hi2
            obtain ⟨-, hli, hlc⟩ := hsucc herr
            rw [hics2 hbad] at hli
            rw [hcs2 hbad] at hlc
            rcases hdecl with h | h
            · simp [h] at hli
            · simp [h] at hlc
          · intro herr
            have hbad := hparse herr
            simp [hics2 hbad, hcs2 hbad]
  refine ⟨key.1, ?_, key.2⟩
  intro h
  by_contra hcon
  obtain ⟨p, i, -, -, hi, hdecl, -⟩ := key.1.mp hcon
  rcases h with h | ⟨i2, h, hin, hout⟩
  · rw [h] at hi
    cases hi
  · rw [h] at hi
    cases hi
    simp [hin, hout] at hdecl

/-- C20, at the sample config whose memory string does not parse: the call returns an error
and appends no container. -/
theorem addCoPilotToPod_error_iff_witness :
    (∀ i v, some sampleInterface = some i → (i.Inputs = some v ∨ i.Outputs = some v) →
      ∃ b, sampleLibrary.Marshal v = Except.ok b) ∧
    (AddCoPilotToPod sampleLibrary sampleBadConfig samplePod (some sampleInterface)
      sampleMetadata sampleInputPaths sampleOutputPaths (some samplePilot)).2 ≠ none ∧
    (AddCoPilotToPod sampleLibrary sampleBadConfig samplePod (some sampleInterface)
      sampleMetadata sampleInputPaths sampleOutputPaths (some samplePilot)).1.Containers =
      samplePod.Containers :=
  have h := addCoPilotToPod_error_iff sampleLibrary sampleBadConfig samplePod
    (some sampleInterface) sampleMetadata sampleInputPaths sampleOutputPaths (some samplePilot)
    (fun _ _ _ _ => ⟨_, rfl⟩)
  have herr := h.1.mpr ⟨samplePilot, sampleInterface, rfl, rfl, rfl, Or.inl rfl,
    Or.inr ⟨_, rfl⟩⟩
  ⟨fun _ _ _ _ => ⟨_, rfl⟩, herr, (h.2.2 herr).2⟩

end flytek8s

/-! ## Theorems: the phase mapper -/

namespace container

open k8splugins

/-- C17: for every observed pod status the phase mapper returns no error; it maps Pending to
Queued, Running to Running, Succeeded to Success, and Failed to RetryableFailure with the type
of the condition as error code when a condition is set (`Unschedulable` for an unschedulable
condition) and `UnknownError` when none is set; it never gives PermanentFailure. -/
theorem getTaskPhase_mapping (status : PodStatus) :
    (GetTaskPhase status).2 = none ∧
    (status.Phase = PodPending → (GetTaskPhase status).1.Phase = TaskPhase.Queued) ∧
    (status.Phase = PodRunning → (GetTaskPhase status).1.Phase = TaskPhase.Running) ∧
    (status.Phase = PodSucceeded → (GetTaskPhase status).1.Phase = TaskPhase.Success) ∧
    (status.Phase = PodFailed →
      (GetTaskPhase status).1.Phase = TaskPhase.RetryableFailure ∧
      (∀ t, status.Condition = some t →
        ((GetTaskPhase status).1.Err.map Prod.fst) = some t) ∧
      (status.Condition = some PodReasonUnschedulable →
        ((GetTaskPhase status).1.Err.map Prod.fst) = some "Unschedulable") ∧
      (status.Condition = none →
        ((GetTaskPhase status).1.Err.map Prod.fst) = some "UnknownError")) ∧
    (GetTaskPhase status).1.Phase ≠ TaskPhase.PermanentFailure := by
  have h1 : PodPending ≠ PodFailed := by decide
  have h2 : PodRunning ≠ PodFailed := by decide
  have h3 : PodSucceeded ≠ PodFailed := by decide
  have h4 : PodPending ≠ PodRunning := by decide
  have h5 : PodPending ≠ PodSucceeded := by decide
  have h6 : PodRunning ≠ PodSucceeded := by decide
  refine ⟨?_, ?_, ?_, ?_, ?_, ?_⟩
  · unfold GetTaskPhase
    split_ifs <;> rfl
  · intro h
    simp [GetTaskPhase, h]
  · intro h
    simp [GetTaskPhase, h, h4.symm]
  · intro h
    simp [GetTaskPhase, h, h5.symm, h6.symm]
  · intro h
    refine ⟨?_, ?_, ?_, ?_⟩
    · simp [GetTaskPhase, h, h1.symm, h2.symm, h3.symm]
    · intro t ht
      simp [GetTaskPhase, h, h1.symm, h2.symm, h3.symm, ht]
    · intro ht
      simp [GetTaskPhase, h, h1.symm, h2.symm, h3.symm, ht, PodReasonUnschedulable]
    · intro ht
      simp [GetTaskPhase, h, h1.symm, h2.symm, h3.symm, ht]
  · unfold GetTaskPhase
    split_ifs <;> simp

/-- C17, at the failed pod of the test: reason and condition `Unschedulable`, message
`some message`. -/
theorem getTaskPhase_mapping_witness :
    GetTaskPhase sampleFailedStatus =
      ({ Phase := TaskPhase.RetryableFailure, Err := some ("Unschedulable", "some message") },
        none) ∧
    (GetTaskPhase sampleFailedStatus).1.Err.map Prod.fst =
      some "Unschedulable" :=
  ⟨by decide,
    ((getTaskPhase_mapping sampleFailedStatus).2.2.2.2.1 rfl).2.1
      "Unschedulable" rfl⟩

end container

/-! ## Theorems: the object status tracker, continued -/

namespace k8splugins

/-- C18: the result of `RetrieveK8sObjectStatus` depends on the entries at the two keys only.
A map made of the two stored entries and of any further entries (under other keys, as the keys
of a map are pairwise distinct), visited in any order, gives the stored pair and no error; the
map with no entry gives an error, the nil map gives none. -/
theorem retrieve_ignores_other_keys (fmtV : Value → String) (s : K8sObjectStatus)
    (p : TaskPhase) (extra m : GoMap)
    (hperm : List.Perm m (StoreK8sObjectStatus s p ++ extra)) (hwf : WellFormed m) :
    RetrieveK8sObjectStatus fmtV (some m) = (s, p, none) ∧
    (RetrieveK8sObjectStatus fmtV (some [])).2.2 ≠ none ∧
    (RetrieveK8sObjectStatus fmtV none).2.2 = none := by
  have hs : m.get statusKey = some (Value.status s) :=
    get_of_mem m hwf _ _ (hperm.mem_iff.mpr (by simp [StoreK8sObjectStatus]))
  have hp : m.get terminalTaskPhaseKey = some (Value.phase p) :=
    get_of_mem m hwf _ _ (hperm.mem_iff.mpr (by simp [StoreK8sObjectStatus]))
  refine ⟨?_, ?_, rfl⟩
  · rw [retrieve_some fmtV m hwf, hs, hp]
  · simp [RetrieveK8sObjectStatus]

/-- C18, at a map with three further entries of three types, one of them visited first. -/
theorem retrieve_ignores_other_keys_witness :
    WellFormed [("owner", Value.str "node"), (statusKey, Value.status K8sObjectExists),
      (terminalTaskPhaseKey, Value.phase TaskPhase.Running), ("attempt", Value.int 3),
      ("empty", Value.nil)] ∧
    RetrieveK8sObjectStatus (fun _ => "")
      (some [("owner", Value.str "node"), (statusKey, Value.status K8sObjectExists),
        (terminalTaskPhaseKey, Value.phase TaskPhase.Running), ("attempt", Value.int 3),
        ("empty", Value.nil)]) = (K8sObjectExists, TaskPhase.Running, none) :=
  ⟨by decide,
    (retrieve_ignores_other_keys (fun _ => "") K8sObjectExists TaskPhase.Running
      [("owner", Value.str "node"), ("attempt", Value.int 3), ("empty", Value.nil)]
      [("owner", Value.str "node"), (statusKey, Value.status K8sObjectExists),
        (terminalTaskPhaseKey, Value.phase TaskPhase.Running), ("attempt", Value.int 3),
        ("empty", Value.nil)]
      (by
        have h : List.Perm
            ([("owner", Value.str "node")] ++
              ([(statusKey, Value.status K8sObjectExists),
                (terminalTaskPhaseKey, Value.phase TaskPhase.Running)] ++
                [("attempt", Value.int 3), ("empty", Value.nil)]))
            (([(statusKey, Value.status K8sObjectExists),
                (terminalTaskPhaseKey, Value.phase TaskPhase.Running)] ++
                [("owner", Value.str "node")]) ++
              [("attempt", Value.int 3), ("empty", Value.nil)]) := by
          rw [← List.append_assoc]
          exact List.Perm.append_right _ List.perm_append_comm
        simpa [StoreK8sObjectStatus] using h)
      (by decide)).1⟩

end k8splugins
